import Mathlib

/-!
Verification development for the Printer-ETL-Hub telemetry enrichment engine.

The Python sources are shallowly embedded: text is `List Char` (Python `str`),
network I/O is abstracted as an oracle passed to each probe function (the
oracle answers exactly the requests the source code issues), exceptions are
`Except`/`Option`, and dictionaries are association lists that keep insertion
order, mirroring Python 3.7+ dict semantics.
-/

/-- Str models a Python `str` as a list of characters; Lean `String`
functions are avoided because they do not reduce in the kernel. -/
abbrev Str := List Char

/-- letters A-Z map to a-z; other characters unchanged (ASCII model of
Python `str.lower`; the vendor tokens compared in the sources are ASCII,
and Hebrew has no case, so the ASCII model agrees with Python here). -/
def charLowerA (c : Char) : Char :=
  if 65 ≤ c.toNat ∧ c.toNat ≤ 90 then Char.ofNat (c.toNat + 32) else c

/-- letters a-z map to A-Z (ASCII model of Python `str.upper`). -/
def charUpperA (c : Char) : Char :=
  if 97 ≤ c.toNat ∧ c.toNat ≤ 122 then Char.ofNat (c.toNat - 32) else c

def strLower (s : Str) : Str := s.map charLowerA

def strUpper (s : Str) : Str := s.map charUpperA

/-- whitespace removed by Python `str.strip()`. -/
def isPySpace (c : Char) : Bool :=
  c.toNat = 32 || c.toNat = 9 || c.toNat = 10 || c.toNat = 13 || c.toNat = 11 || c.toNat = 12

/-- Python `str.strip()`. -/
def pyStrip (s : Str) : Str :=
  ((s.dropWhile isPySpace).reverse.dropWhile isPySpace).reverse

/-- whether `pat` stands at the head of the second list. -/
def startsWithL [DecidableEq α] : List α → List α → Bool
  | [], _ => true
  | _ :: _, [] => false
  | a :: as, b :: bs => a = b && startsWithL as bs

/-- Python `pat in s` on strings: `pat` occurs as a contiguous run of `s`. -/
def hasSub [DecidableEq α] (pat : List α) : List α → Bool
  | [] => startsWithL pat []
  | b :: bs => startsWithL pat (b :: bs) || hasSub pat bs

def digitsToNat (acc : Nat) : Str → Nat
  | [] => acc
  | c :: cs => digitsToNat (acc * 10 + (c.toNat - 48)) cs

/-- Python `str.isdigit()` restricted to ASCII. -/
def isDigits (s : Str) : Bool :=
  s ≠ [] && s.all Char.isDigit

/-- Python `int(str)`: strips whitespace, allows one sign, then decimal
digits; anything else raises `ValueError` (modelled as `none`). Digit-group
underscores are not modelled — no input in this development carries them. -/
def pyIntOfText (s : Str) : Option Int :=
  match pyStrip s with
  | '+' :: ds => if isDigits ds then some (digitsToNat 0 ds : Nat) else none
  | '-' :: ds => if isDigits ds then some (-(digitsToNat 0 ds : Nat) : Int) else none
  | ds => if isDigits ds then some (digitsToNat 0 ds : Nat) else none

/-- Python `str.split(sep)` for a one-character separator. -/
def splitOnChar (sep : Char) (s : Str) : List Str :=
  s.foldr (fun c acc =>
    match acc with
    | [] => [[c]]
    | cur :: rest => if c = sep then [] :: cur :: rest else (c :: cur) :: rest) [[]]

/-- Python `str(n)` for an int. -/
def intToText (n : Int) : Str :=
  if n < 0 then '-' :: Nat.toDigits 10 n.natAbs else Nat.toDigits 10 n.toNat

/-- Python `sep.join(items)`. -/
def joinSep (sep : Str) : List Str → Str
  | [] => []
  | [x] => x
  | x :: y :: rest => x ++ sep ++ joinSep sep (y :: rest)

/-- Python truthiness of an optional string: `None` and `""` are falsy. -/
def truthyT : Option Str → Bool
  | none => false
  | some s => s ≠ []

/-- Python `a or b` over optional strings. -/
def pyOrT (a b : Option Str) : Option Str :=
  if truthyT a then a else b

/-- Python `a or b` where `b` is a plain string. -/
def pyOrS (a : Option Str) (b : Str) : Str :=
  match a with
  | some s => if s ≠ [] then s else b
  | none => b

/-- a stripped string if non-empty, else `None` (the `x if x else None`
idiom of the sources). -/
def nonEmptyOpt (s : Str) : Option Str :=
  if s = [] then none else some s

/-- bit `k` of a Python int under two's complement (Python `n & (1 << k)`).
For a negative `n`, bit `k` is the complement of bit `k` of `-n - 1`. -/
def pyBitSet (n : Int) (k : Nat) : Bool :=
  if 0 ≤ n then n.toNat.testBit k else !((-n - 1).toNat.testBit k)

/-! ## adapters/snmp_client.py -/

/-- a value yielded by an SNMP walk (puresnmp gives ints and octet
strings; both are modelled). -/
inductive SnmpValue where
  | vint (n : Int)
  | vstr (s : Str)
  deriving DecidableEq

/-- Python `str(value)` on a walk value. -/
def valueToText : SnmpValue → Str
  | .vint n => intToText n
  | .vstr s => s

/-- Python `int(value)` on a walk value (`none` = `ValueError`). -/
def pyIntOfValue : SnmpValue → Option Int
  | .vint n => some n
  | .vstr s => pyIntOfText s

/-- the outcome the network offers one `walk` call: rows, a timeout, or a
failure to start the walk (DNS/socket errors). -/
inductive WalkOutcome where
  | rows (vs : List (Str × SnmpValue))
  | timeout
  | connectFail

/-- a network oracle: what each (host, base_oid) walk request would yield. -/
abbrev SnmpNet := Str → Str → WalkOutcome

/-- adapters/snmp_client.py `_BAD_HOSTS`. -/
def clientBadHosts : List Str :=
  [[], "-".toList, "n/a".toList, "na".toList, "none".toList, "0.0.0.0".toList]

/-- adapters/snmp_client.py `_is_bad_host`. -/
def is_bad_host (host : Str) : Bool :=
  strLower (pyStrip host) ∈ clientBadHosts

/-- adapters/snmp_client.py `walk_oid`: yields nothing for a bad host
(`make_snmp` returns `None`), and — per its own docstring — swallows
timeouts and connection failures into an empty iteration. -/
def walk_oid (net : SnmpNet) (host base_oid : Str) : List (Str × SnmpValue) :=
  if is_bad_host host then []
  else
    match net host base_oid with
    | .rows vs => vs
    | .timeout => []
    | .connectFail => []

/-- the network requests `walk_oid` actually makes: none for a bad host,
one walk otherwise (timeout and failure still contact the network). -/
def walkCalls (host base_oid : Str) : List (Str × Str) :=
  if is_bad_host host then [] else [(host, base_oid)]

/-! ## adapters/snmp_alerts.py -/

def ALERT_TABLE_ROOT : Str := "1.3.6.1.2.1.43.18.1.1".toList

def HR_PRN_ERRORSTATE_BASE : Str := "1.3.6.1.2.1.25.3.5.1.2".toList

def HR_BITS : List (Str × Nat) :=
  [("lowPaper".toList, 0), ("noPaper".toList, 1), ("lowToner".toList, 2),
   ("noToner".toList, 3), ("doorOpen".toList, 4), ("jammed".toList, 5),
   ("offline".toList, 6), ("serviceRequested".toList, 7),
   ("inputTrayMissing".toList, 8), ("outputTrayMissing".toList, 9),
   ("markerSupplyMissing".toList, 10), ("outputNearFull".toList, 11),
   ("outputFull".toList, 12), ("inputTrayEmpty".toList, 13),
   ("overduePreventMaint".toList, 14)]

def SUPPRESS_PHRASES : List Str :=
  ["sleep mode on".toList, "power saver mode".toList,
   "מצב שינה פועל".toList, "genuine hp cartridge installed".toList]

def HEB_EN : List (Str × Str) :=
  [("תוף שחור ברמה נמוכה מאוד".toList, "Black drum very low".toList),
   ("אי-התאמת גודל ב-מגש 1".toList, "Tray 1 size mismatch".toList),
   ("גודל בלתי צפוי ב-מגש 1".toList, "Unexpected size in Tray 1".toList),
   ("מושהה".toList, "Paused".toList),
   ("41.03.B1 גודל בלתי צפוי ב-מגש 1".toList, "Unexpected size in Tray 1".toList),
   ("66044".toList, "Service requested".toList)]

/-- association-list lookup (Python `d[k]` / `d.get(k)` / `k in d`). -/
def alistFind [DecidableEq κ] (l : List (κ × α)) (k : κ) : Option α :=
  match l with
  | [] => none
  | (k0, v) :: rest => if k0 = k then some v else alistFind rest k

/-- adapters/snmp_alerts.py `_severity_tag`. -/
def severity_tag (num : Option Int) : Str :=
  match num with
  | none => "unknown".toList
  | some n =>
    if n = 1 then "other".toList
    else if n = 2 then "unknown".toList
    else if n = 3 then "warning".toList
    else if n = 4 then "critical".toList
    else "unknown".toList

/-- adapters/snmp_alerts.py `_clean_desc`. -/
def clean_desc (desc : Str) : Str :=
  let d := pyStrip desc
  if d = [] then []
  else
    let d := match alistFind HEB_EN d with
      | some t => t
      | none => d
    if strLower d ∈ SUPPRESS_PHRASES then [] else d

/-- adapters/snmp_alerts.py `_mk_msg` (severity, group and groupidx are
accepted and ignored, as in the source). -/
def mk_msg (_severity : Str) (_group : Option Int) (code : Option Int)
    (desc : Option Str) (_groupidx : Option Int) : Str :=
  let d := clean_desc (desc.getD [])
  if d ≠ [] then d
  else
    match code with
    | some c => if c ≠ 0 then "Code ".toList ++ intToText c else []
    | none => []

/-- adapters/snmp_alerts.py `_hr_bits_as_flags`. -/
def hr_bits_as_flags (bits : Int) : List Str :=
  (HR_BITS.filter (fun p => pyBitSet bits p.2)).map Prod.fst

/-- one row of the SNMP alert table as `_snmp_alert_rows` accumulates it
(the dict keys "2","4","5","7","8","9" become fields). -/
structure ARow where
  sev : Option Int := none
  group : Option Int := none
  groupidx : Option Int := none
  code : Option Int := none
  desc : Option Str := none
  time : Option Str := none
  deriving DecidableEq

/-- Python `rows.setdefault(row, dflt)` followed by a mutation of the row
value: update in place if the key exists, else append the new row. -/
def updateRowAt (dflt : α) (rows : List (Int × α)) (r : Int) (f : α → α) :
    List (Int × α) :=
  match rows with
  | [] => [(r, f dflt)]
  | (k, v) :: rest => if k = r then (k, f v) :: rest else (k, v) :: updateRowAt dflt rest r f

/-- Python `d[k] = v` on a dict kept as an insertion-ordered association
list: replace in place, else append. -/
def alistSet [DecidableEq κ] (l : List (κ × α)) (k : κ) (v : α) : List (κ × α) :=
  match l with
  | [] => [(k, v)]
  | (k0, v0) :: rest => if k0 = k then (k0, v) :: rest else (k0, v0) :: alistSet rest k v

/-- the column dispatch of `_snmp_alert_rows` for one (oid, value) pair. -/
def applyAlertCol (col : Str) (value : SnmpValue) (row : ARow) : ARow :=
  if col = "2".toList then
    match pyIntOfValue value with
    | some n => { row with sev := some n }
    | none => row
  else if col = "4".toList then
    match pyIntOfValue value with
    | some n => { row with group := some n }
    | none => row
  else if col = "5".toList then
    match pyIntOfValue value with
    | some n => { row with groupidx := some n }
    | none => row
  else if col = "7".toList then
    match pyIntOfValue value with
    | some n => { row with code := some n }
    | none => row
  else if col = "8".toList then
    let txt := pyStrip (valueToText value)
    if txt ≠ [] then { row with desc := some txt } else row
  else if col = "9".toList then
    { row with time := some (pyStrip (valueToText value)) }
  else row

/-- adapters/snmp_alerts.py `_snmp_alert_rows`. The unguarded
`int(parts[-1])` can raise `ValueError` on a malformed OID, which
propagates to the caller; this is the `Except.error` case. -/
def snmp_alert_rows (net : SnmpNet) (ip : Str) (community_timeout : Unit) :
    Except Unit (List (Int × ARow)) :=
  let _ := community_timeout
  (walk_oid net ip ALERT_TABLE_ROOT).foldlM (fun rows p =>
    let parts := splitOnChar '.' p.1
    match parts.reverse with
    | rowTxt :: col :: _ =>
      match pyIntOfText rowTxt with
      | none => .error ()
      | some r => pure (updateRowAt ({} : ARow) rows r (applyAlertCol col p.2))
    | _ => pure rows) []

/-- adapters/snmp_alerts.py `_snmp_hr_errorstate`: the first walk value
that parses as an int decides — no flags means `None`, otherwise the
joined flag names with severity warning/critical. -/
def snmp_hr_errorstate (net : SnmpNet) (ip : Str) : Option (Str × Str) :=
  match (walk_oid net ip HR_PRN_ERRORSTATE_BASE).findSome?
      (fun p => pyIntOfValue p.2) with
  | none => none
  | some bits =>
    let flags := hr_bits_as_flags bits
    if flags = [] then none
    else
      let msg := joinSep ", ".toList flags
      let sev :=
        if "offline".toList ∈ flags || "serviceRequested".toList ∈ flags
        then "critical".toList else "warning".toList
      some (msg, sev)

/-- stable insertion into an ascending-by-key list (a later element with an
equal key goes after the earlier one). -/
def insertAsc (x : Int × α) : List (Int × α) → List (Int × α)
  | [] => [x]
  | y :: ys => if y.1 ≤ x.1 then y :: insertAsc x ys else x :: y :: ys

/-- Python `sorted(rows.items(), key=lambda t: t[0])`: a stable ascending
sort by key (insertion sort). -/
def sortRowsByKey (l : List (Int × α)) : List (Int × α) :=
  l.foldl (fun acc x => insertAsc x acc) []

def tierNames : List Str :=
  ["critical".toList, "warning".toList, "other".toList, "unknown".toList]

/-- the message `_decide_message_from_rows` computes for a row. -/
def rowMsg (tier : Str) (r : ARow) : Str :=
  mk_msg tier r.group r.code r.desc r.groupidx

/-- adapters/snmp_alerts.py `_decide_message_from_rows`: walk the tiers
critical, warning, other, unknown; within a tier take the first row (in
ascending row-index order) with a non-empty message. -/
def decide_message_from_rows (rows : List (Int × ARow)) : Option (Str × Str) :=
  if rows = [] then none
  else
    let ordered := sortRowsByKey rows
    match tierNames.findSome? (fun tier =>
        (ordered.find? (fun t =>
            severity_tag t.2.sev = tier && rowMsg tier t.2 ≠ [])).map
          (fun t => (rowMsg tier t.2, tier))) with
    | none => none
    | some (msg, tag) =>
      some (msg, if tag = "critical".toList then "critical".toList else "warning".toList)

/-- adapters/snmp_alerts.py `process_snmp_alerts`, together with the list
of network walks it performs. -/
def process_snmp_alertsT (net : SnmpNet) (ip : Str) :
    Except Unit ((Str × Str) × List (Str × Str)) := do
  let rows ← snmp_alert_rows net ip ()
  let t1 := walkCalls ip ALERT_TABLE_ROOT
  match (if rows ≠ [] then decide_message_from_rows rows else none) with
  | some decided => pure (decided, t1)
  | none =>
    let t2 := t1 ++ walkCalls ip HR_PRN_ERRORSTATE_BASE
    match snmp_hr_errorstate net ip with
    | some hr => pure (hr, t2)
    | none => pure (("Normal".toList, "informational".toList), t2)

/-- adapters/snmp_alerts.py `process_snmp_alerts` (result only). -/
def process_snmp_alerts (net : SnmpNet) (ip : Str) : Except Unit (Str × Str) :=
  (process_snmp_alertsT net ip).map Prod.fst

/-! ## adapters/ledm_client.py -/

/-- one `<Event>` element of the LEDM event table, at the boundary where
`_text_of_first` extracts texts: `severityText` is the first non-empty
`Severity` text under the element, `codeText` the first non-empty
`Code/EventCode/ID/ErrorCode` text, `descText` the first non-empty
`Description/EventDescription/Name/Reason` text. -/
structure LedmEvent where
  severityText : Option Str := none
  codeText : Option Str := none
  descText : Option Str := none

/-- one `<Alert>` element of `ProductStatusDyn.xml`, same boundary:
`codeText` is the first `ProductStatusAlertID/StringId/ID/Code` text,
`descText` the first `AlertDetailsUserAction/Description/Name/Reason`. -/
structure LedmAlert where
  severityText : Option Str := none
  codeText : Option Str := none
  descText : Option Str := none

/-- the parsed status document at the `_text_of_first` boundary:
`statusText` is the first non-empty
`LocString/StatusString/StatusMessage/Reason/DetailedReason/State` text,
`statusCategory` the first non-empty `StatusCategory` text, and `alerts`
the `<Alert>` elements in document order. -/
structure LedmStatusRoot where
  statusText : Option Str := none
  statusCategory : Option Str := none
  alerts : List LedmAlert := []

/-- adapters/ledm_client.py `SEVERITY_ORDER`. -/
def ledmSeverityOrder : List (Str × Int) :=
  [("CRITICAL".toList, 3), ("STRICTERROR".toList, 3), ("ERROR".toList, 3),
   ("WARNING".toList, 2), ("STRICTWARNING".toList, 2), ("INFO".toList, 1)]

/-- adapters/ledm_client.py `_triage_three`. -/
def ledm_triage_three (sev : Option Str) : Str :=
  match sev with
  | none => "informational".toList
  | some sv =>
    let s := pyStrip sv
    if isDigits s then
      let n := digitsToNat 0 s
      if n ≥ 6 then "critical".toList
      else if n ≥ 3 then "warning".toList
      else "informational".toList
    else
      let low := strLower s
      if low ∈ ["critical".toList, "fatal".toList, "stricterror".toList,
                "error".toList, "severe".toList] then "critical".toList
      else if low ∈ ["warning".toList, "strictwarning".toList, "warn".toList,
                     "attention".toList] then "warning".toList
      else if low ∈ ["info".toList, "informational".toList, "notice".toList] then
        "informational".toList
      else "informational".toList

/-- `sev_raw = (_text_of_first(ev, ["Severity"]) or "").strip().upper()`. -/
def ledmEventSevRaw (ev : LedmEvent) : Str :=
  strUpper (pyStrip (ev.severityText.getD []))

/-- `rank = SEVERITY_ORDER.get(sev_raw, -1)`. -/
def ledmEventRank (ev : LedmEvent) : Int :=
  (alistFind ledmSeverityOrder (ledmEventSevRaw ev)).getD (-1)

/-- the `best` tuple `best_event_from_table` stores for an event. -/
def ledmEventPick (ev : LedmEvent) : Option Str × Option Str × Str :=
  (nonEmptyOpt (pyStrip (ev.codeText.getD [])),
   nonEmptyOpt (pyStrip (ev.descText.getD [])),
   ledm_triage_three (some (ledmEventSevRaw ev)))

/-- one iteration of the `best_event_from_table` loop. -/
def ledmEventStep (acc : Option (Option Str × Option Str × Str) × Int)
    (ev : LedmEvent) : Option (Option Str × Option Str × Str) × Int :=
  if ledmEventRank ev ≥ acc.2 then (some (ledmEventPick ev), ledmEventRank ev) else acc

/-- adapters/ledm_client.py `best_event_from_table`: fold over the events,
replacing the best whenever the current rank is greater than *or equal to*
the best rank so far (so a later event of equal rank replaces an earlier
one); rank defaults to -1 for unknown severities. -/
def best_event_from_table (events : Option (List LedmEvent)) :
    Option Str × Option Str × Option Str :=
  match events with
  | none => (none, none, none)
  | some evs =>
    match (evs.foldl ledmEventStep (none, -1)).1 with
    | some (c, d, s) => (c, d, some s)
    | none => (none, none, none)

/-- adapters/ledm_client.py: the `mapping` dict of `problem_from_status`. -/
def ledmStatusCategoryMap : List (Str × Str) :=
  [("ready".toList, "Ready".toList), ("processing".toList, "Processing".toList),
   ("warmup".toList, "Warming up".toList), ("attention".toList, "Needs attention".toList),
   ("interventionrequired".toList, "Needs attention".toList), ("error".toList, "Error".toList),
   ("idle".toList, "Idle".toList), ("sleep".toList, "Sleep".toList)]

/-- Python `str.capitalize()` (ASCII model). -/
def pyCapitalize (s : Str) : Str :=
  match s with
  | [] => []
  | c :: cs => charUpperA c :: strLower cs

/-- adapters/ledm_client.py `problem_from_status`. -/
def problem_from_status (status : Option LedmStatusRoot) : Option Str :=
  let s := status.bind (·.statusText)
  if truthyT s then s
  else
    let cat := strLower (pyStrip ((status.bind (·.statusCategory)).getD []))
    if cat ≠ [] then
      match alistFind ledmStatusCategoryMap cat with
      | some v => some v
      | none => some (pyCapitalize cat)
    else none

/-- adapters/ledm_client.py: the `sev_rank` dict of `_best_alert_from_status`. -/
def ledmAlertSevRank : List (Str × Int) :=
  [("CRITICAL".toList, 3), ("ERROR".toList, 3), ("WARNING".toList, 2),
   ("INFO".toList, 1), ("STRICTERROR".toList, 3), ("STRICTWARNING".toList, 2)]

/-- `sev_raw = (_text_of_first(a, ["Severity"]) or "Info").strip().upper()`. -/
def ledmAlertSevRaw (a : LedmAlert) : Str :=
  strUpper (pyStrip (pyOrS a.severityText "Info".toList))

/-- one iteration of the `_best_alert_from_status` loop: `score` defaults
to 0 for an unknown severity. -/
def ledmAlertStep (acc : Option (Option Str × Option Str × Str) × Int)
    (a : LedmAlert) : Option (Option Str × Option Str × Str) × Int :=
  let sevRaw := ledmAlertSevRaw a
  let score := (alistFind ledmAlertSevRank sevRaw).getD 0
  if score ≥ acc.2 then
    (some (nonEmptyOpt (pyStrip (a.codeText.getD [])),
           nonEmptyOpt (pyStrip (a.descText.getD [])),
           ledm_triage_three (some sevRaw)), score)
  else acc

/-- adapters/ledm_client.py `_best_alert_from_status`: like the event fold,
`score >= best_score` lets a later alert of equal score replace an earlier
one; a missing severity text defaults to "Info", an unknown one scores 0. -/
def best_alert_from_status (status : Option LedmStatusRoot) :
    Option Str × Option Str × Option Str :=
  match status with
  | none => (none, none, none)
  | some st =>
    if st.alerts.isEmpty then (none, none, none)
    else
      match (st.alerts.foldl ledmAlertStep (none, -1)).1 with
      | some (c, d, s) => (c, d, some s)
      | none => (none, none, none)

/-- adapters/ledm_client.py `derive_severity_from_problem`. -/
def derive_severity_from_problem (problem : Option Str) : Str :=
  match problem with
  | none => "informational".toList
  | some p =>
    if p = [] then "informational".toList
    else
      let pl := strLower p
      if ["jam", "door", "open", "cover", "fault", "failure", "error", "empty",
          "replace"].any (fun k => hasSub k.toList pl) then "critical".toList
      else if ["low", "depleted", "almost", "calibrat", "warming", "busy", "sleep",
               "power saver", "attention"].any (fun k => hasSub k.toList pl) then
        "warning".toList
      else "informational".toList

/-- adapters/ledm_client.py `normalize_problem_and_severity`. -/
def ledm_normalize_problem_and_severity (problem severity : Option Str) :
    Option Str × Option Str :=
  let p := pyStrip (problem.getD [])
  let low := strLower p
  if hasSub "unknown".toList low then (none, some "informational".toList)
  else if hasSub "acknowledgeconsumablestate".toList low then
    (some "Ready".toList, some "informational".toList)
  else if (hasSub "ready".toList low && !hasSub "not ready".toList low &&
           !hasSub "unready".toList low) || hasSub "מוכן".toList p then
    (some "Ready".toList, some "informational".toList)
  else if hasSub "sleep".toList low || hasSub "inpowersave".toList low ||
          hasSub "שינה".toList p then
    (some "Sleeping".toList, some "informational".toList)
  else (problem, severity)

/-- adapters/ledm_client.py `get_ledm_problem_and_severity`, at the
boundary where `fetch_ledm_roots` has produced the two parsed documents
(either may be `none` when the fetch or the XML parse failed). -/
def get_ledm_problem_and_severity (status : Option LedmStatusRoot)
    (events : Option (List LedmEvent)) : Str × Str :=
  let ev := best_event_from_table events
  let evProblem := ev.2.1
  let evSev := ev.2.2
  let stProblem := problem_from_status status
  let al := best_alert_from_status status
  let alProblem := al.2.1
  let alSev := al.2.2
  let problem : Str := pyOrS (pyOrT evProblem alProblem) (pyOrS stProblem "Unknown".toList)
  let severity : Str := pyOrS (pyOrT evSev alSev) (derive_severity_from_problem (some problem))
  let norm := ledm_normalize_problem_and_severity (some problem) (some severity)
  let severityN := if truthyT norm.2 then norm.2 else some "informational".toList
  (pyOrS norm.1 "Normal".toList, severityN.getD [])

/-! ## adapters/ews_alerts.py -/

/-- one alert dict as the EWS extractors build it (keys "severity",
"status_code", "description", all plain strings, "" when absent). -/
structure EwsAlert where
  severity : Str := []
  status_code : Str := []
  description : Str := []
  deriving DecidableEq

/-- one entry of the code catalog after `_load_code_catalog` (its `status`
is upper-cased with fallback "INFO" by the loader, but nothing below
depends on that, so arbitrary entries are allowed). -/
structure CatEntry where
  status : Str := []
  info : Str := []
  deriving DecidableEq

/-- adapters/ews_alerts.py `_triage_three` (its vocabulary differs from the
LEDM one: no "stricterror"/"strictwarning", and "warn" is accepted). -/
def ews_triage_three (sev : Option Str) : Str :=
  match sev with
  | none => "informational".toList
  | some sv =>
    let s := pyStrip sv
    if isDigits s then
      let n := digitsToNat 0 s
      if n ≥ 6 then "critical".toList
      else if n ≥ 3 then "warning".toList
      else "informational".toList
    else
      let low := strLower s
      if low ∈ ["critical".toList, "fatal".toList, "severe".toList, "error".toList] then
        "critical".toList
      else if low ∈ ["attention".toList, "warning".toList, "warn".toList] then
        "warning".toList
      else if low ∈ ["info".toList, "informational".toList, "notice".toList] then
        "informational".toList
      else "informational".toList

/-- adapters/ews_alerts.py `_severity_rank`. -/
def severity_rank (sev : Str) : Int :=
  let s := pyStrip sev
  if isDigits s then (digitsToNat 0 s : Nat)
  else
    let low := strLower s
    if low ∈ ["fatal".toList, "critical".toList] then 9
    else if low ∈ ["error".toList, "severe".toList] then 6
    else if low = "warning".toList then 3
    else if low = "attention".toList then 5
    else if low ∈ ["info".toList, "informational".toList] then 1
    else 0

/-- adapters/ews_alerts.py `_catalog_status_to_rank`. -/
def catalog_status_to_rank (status : Option Str) : Int :=
  let s := strUpper (pyStrip (status.getD []))
  if s = "CRITICAL".toList then 9
  else if s = "ATTENTION".toList then 5
  else if s = "INFO".toList then 1
  else 0

/-- a `\w` character of the `re` module, restricted to ASCII (every string
these theorems evaluate the pattern on is ASCII). -/
def isWordChar (c : Char) : Bool := c.isAlphanum || c = '_'

def isUpperAZ (c : Char) : Bool := 65 ≤ c.toNat && c.toNat ≤ 90

/-- length of the leading digit run. -/
def digitRun : Str → Nat
  | [] => 0
  | c :: cs => if c.isDigit then digitRun cs + 1 else 0

/-- one anchored attempt of `CODE_RE = \b[A-Z]\d-\d{3,5}\b`: a match needs
a non-word character (or the string edge) before and after, an upper-case
letter, a digit, a dash, and 3 to 5 digits (6 or more digits make every
greedy backtrack end on a digit, so no match). -/
def tryCodeAt (prevWord : Bool) (l : Str) : Option Str :=
  if prevWord then none
  else
    match l with
    | a :: b :: '-' :: rest =>
      if isUpperAZ a && b.isDigit then
        let m := digitRun rest
        if 3 ≤ m && m ≤ 5 then
          match (rest.drop m).head? with
          | none => some (a :: b :: '-' :: rest.take m)
          | some c => if isWordChar c then none else some (a :: b :: '-' :: rest.take m)
        else none
      else none
    | _ => none

def codeSearchGo (prevWord : Bool) : Str → Option Str
  | [] => none
  | c :: cs =>
    match tryCodeAt prevWord (c :: cs) with
    | some r => some r
    | none => codeSearchGo (isWordChar c) cs

/-- adapters/ews_alerts.py `CODE_RE.search`: the leftmost match. -/
def code_re_search (s : Str) : Option Str := codeSearchGo false s

/-- adapters/ews_alerts.py `_short_label_for`. -/
def short_label_for (code desc : Str) (catalog : List (Str × CatEntry)) :
    Str × Option Str :=
  match (if code ≠ [] then alistFind catalog code else none) with
  | some entry =>
    (pyOrS (some entry.info) "Check printer".toList, nonEmptyOpt entry.status)
  | none =>
    let d := strLower (pyStrip desc)
    if d = [] then ("Normal".toList, none)
    else if hasSub "door".toList d then ("Door open".toList, none)
    else if hasSub "jam".toList d then ("Paper jam".toList, none)
    else if hasSub "toner".toList d && hasSub "detect".toList d then
      ("Toner not detected".toList, none)
    else if hasSub "toner".toList d && (hasSub "empty".toList d || hasSub "end".toList d) then
      ("Toner empty".toList, none)
    else if (hasSub "drum".toList d || hasSub "imaging unit".toList d) &&
            (hasSub "not".toList d && hasSub "install".toList d) then
      ("Drum not installed".toList, none)
    else if (hasSub "drum".toList d || hasSub "imaging unit".toList d) &&
            (hasSub "end".toList d || hasSub "replace".toList d) then
      ("Replace drum now".toList, none)
    else if hasSub "transfer".toList d then ("Transfer roller fault".toList, none)
    else if hasSub "scanner".toList d then ("Scanner error".toList, none)
    else if hasSub "fuser".toList d then ("Fuser error".toList, none)
    else ("Check printer".toList, none)

/-- adapters/ews_alerts.py `_normalize_problem_and_severity`. -/
def ews_normalize_problem_and_severity (problem : Str) : Str × Option Str :=
  let p := pyStrip problem
  let low := strLower p
  if p = [] || low = "normal".toList then ("Ready".toList, some "informational".toList)
  else if hasSub "sleep".toList low then ("Sleeping".toList, some "informational".toList)
  else (p, none)

/-- lexicographic strict order on the (rank, has_code) pairs `_pick_alert`
sorts by. -/
def rankLtPair (a b : Int × Int) : Bool :=
  a.1 < b.1 || (a.1 = b.1 && a.2 < b.2)

/-- stable insertion into a descending list: a later element goes after
every earlier element whose key is not smaller (Python's stable
`pool.sort(key=rank, reverse=True)`). -/
def insertDescBy (key : α → Int × Int) (x : α) : List α → List α
  | [] => [x]
  | y :: ys => if !rankLtPair (key y) (key x) then y :: insertDescBy key x ys
               else x :: y :: ys

def sortDescBy (key : α → Int × Int) (l : List α) : List α :=
  l.foldl (fun acc x => insertDescBy key x acc) []

/-- the `rank` closure of `_pick_alert`: a zero severity rank is upgraded
from the catalog status of the alert's code, and carrying a code at all
breaks ties. -/
def pickRank (catalog : List (Str × CatEntry)) (a : EwsAlert) : Int × Int :=
  let r := severity_rank a.severity
  let r :=
    if r = 0 then
      if a.status_code ≠ [] then
        match alistFind catalog a.status_code with
        | some e => catalog_status_to_rank (some e.status)
        | none => r
      else r
    else r
  (r, if a.status_code ≠ [] then 1 else 0)

/-- adapters/ews_alerts.py `_pick_alert`. -/
def pick_alert (alerts : List EwsAlert) (catalog : List (Str × CatEntry)) :
    Str × Str × Str :=
  if alerts = [] then ([], [], "informational".toList)
  else
    match sortDescBy (pickRank catalog) alerts with
    | [] => ([], [], "informational".toList)
    | top :: _ =>
      let code := top.status_code
      let desc := pyStrip top.description
      let code :=
        if code = [] then
          match code_re_search desc with
          | some m => m
          | none => code
        else code
      let baseSev : Str :=
        match (if code ≠ [] then alistFind catalog code else none) with
        | some e => ews_triage_three (some e.status)
        | none => ews_triage_three (some top.severity)
      (code, desc, baseSev)

/-- adapters/ews_alerts.py `get_ews_problem_and_severity`, at the boundary
where `_fetch_ews_alerts` has produced the alert dicts and
`_load_code_catalog` the catalog mapping. -/
def get_ews_problem_and_severity (alerts : List EwsAlert)
    (catalog : List (Str × CatEntry)) : Str × Str :=
  let picked := pick_alert alerts catalog
  let code := picked.1
  let desc := picked.2.1
  let baseSev := picked.2.2
  let sl := short_label_for code desc catalog
  let sevFromCatalog := sl.2
  let norm := ews_normalize_problem_and_severity sl.1
  let label := norm.1
  let forced := norm.2
  let sev : Str :=
    pyOrS forced
      (if truthyT sevFromCatalog then ews_triage_three sevFromCatalog else baseSev)
  (pyOrS (some label) "Ready".toList, pyOrS (some sev) "informational".toList)

/-! ## core/printers.py -/

/-- the `printerInfo` sub-record of a fleet entity, at the granularity the
plugins touch it (tonerType and printerError fields). -/
structure PrinterInfoRec where
  tonerType : Option (List Str) := none
  printerError : Option (Str × Str) := none
  deriving DecidableEq

/-- one fleet entity as the plugins read it: the three address keys
`norm_ip` consults ("Printer IP", "IP", "ip"), the "Type" key, and the
`printerInfo` sub-record. -/
structure PrinterRec where
  printerIPKey : Option Str := none
  ipKeyUpper : Option Str := none
  ipKeyLower : Option Str := none
  typeKey : Option Str := none
  printerInfo : Option PrinterInfoRec := none
  deriving DecidableEq

/-- core/printers.py `norm_ip`: the first truthy value among the keys
"Printer IP", "IP", "ip", stripped; else "". -/
def norm_ip (p : PrinterRec) : Str :=
  match [p.printerIPKey, p.ipKeyUpper, p.ipKeyLower].findSome?
      (fun o => if truthyT o then some (pyStrip (o.getD [])) else none) with
  | some s => s
  | none => []

/-- core/printers.py `_BAD_IPS` (note: unlike the SNMP client's
`_BAD_HOSTS`, this set also holds "null"). -/
def coreBadIps : List Str :=
  [[], "-".toList, "n/a".toList, "na".toList, "none".toList,
   "0.0.0.0".toList, "null".toList]

/-- core/printers.py `is_good_ip`. -/
def is_good_ip (ip : Str) : Bool :=
  ip ≠ [] && strLower (pyStrip ip) ∉ coreBadIps

/-- core/printers.py `matches_type`. -/
def matches_type (p : PrinterRec) (targets : List Str) : Bool :=
  let typ := strLower (pyStrip (p.typeKey.getD []))
  typ ≠ [] && typ ∈ targets

/-- core/printers.py `ensure_printer_info` followed by
`info["tonerType"] = v` on the structured record. -/
def setTonerType (p : PrinterRec) (v : List Str) : PrinterRec :=
  { p with printerInfo := some { p.printerInfo.getD {} with tonerType := some v } }

/-- core/printers.py `ensure_printer_info` followed by
`info["printerError"] = {"problem": ..., "severity": ...}`. -/
def setPrinterErrorRec (p : PrinterRec) (problem sev : Str) : PrinterRec :=
  { p with printerInfo := some { p.printerInfo.getD {} with printerError := some (problem, sev) } }

/-! ## plugins/printerError/snmp_active_alerts.py -/

/-- the plugin's `TARGET_TYPES_LC`. -/
def ERROR_TARGET_TYPES_LC : List Str :=
  ["e60055".toList, "e60155".toList, "e72525".toList, "m527".toList,
   "sl-m3820nd".toList, "sl-m3870fd".toList, "mfp-p57750-xc".toList,
   "mfc-l9570cdw".toList, "mfc-l6900dw".toList]

/-- plugins/printerError/snmp_active_alerts.py `_process_one_printer`:
result together with the network walks performed. -/
def process_one_printer (net : SnmpNet) (prn : PrinterRec) :
    Except Unit ((Str × Str) × List (Str × Str)) :=
  let ip := norm_ip prn
  if !is_good_ip ip then pure (("Normal".toList, "informational".toList), [])
  else process_snmp_alertsT net ip

/-! ## plugins/tonerType/toner_type_snmp.py (the representative-sampling
else-branch of `main`) -/

/-- the plugin's `TARGET_TYPES_LC`. -/
def TONER_TARGET_TYPES_LC : List Str :=
  ["m402dn".toList, "m404dn".toList, "m426fdn".toList, "m426fdw".toList,
   "m477fnw".toList, "m521dn".toList, "e60055".toList, "e60155".toList,
   "e72525".toList, "m527".toList, "mfp-p57750-xc".toList,
   "mfc-l9570cdw".toList, "mfc-l6900dw".toList, "sl-m3820nd".toList]

/-- the selection loop of `main`: keep (with its position) every printer
with a good IP and a matching type. -/
def toner_type_select (ps : List PrinterRec) : List (Nat × PrinterRec) :=
  ps.enum.filter (fun m => is_good_ip (norm_ip m.2) && matches_type m.2 TONER_TARGET_TYPES_LC)

/-- Python `t = str(prn.get("Type") or "").strip()` — the (case-kept)
grouping key of `by_type`. -/
def group_key (p : PrinterRec) : Str := pyStrip (p.typeKey.getD [])

/-- `by_type.setdefault(t, []).append(prn)`: append to the group if the
key exists, else append a new group at the end (dict insertion order). -/
def addToGroups (gs : List (Str × List (Nat × PrinterRec))) (t : Str)
    (x : Nat × PrinterRec) : List (Str × List (Nat × PrinterRec)) :=
  match gs with
  | [] => [(t, [x])]
  | (k, xs) :: rest =>
    if k = t then (k, xs ++ [x]) :: rest else (k, xs) :: addToGroups rest t x

/-- the `by_type` dict after the grouping loop. -/
def buildGroups (l : List (Nat × PrinterRec)) : List (Str × List (Nat × PrinterRec)) :=
  l.foldl (fun gs m => addToGroups gs (group_key m.2) m) []

/-- the preset scan: the first member whose `printerInfo.tonerType` is a
non-empty list gives the preset, else `[]`. -/
def find_preset (items : List (Nat × PrinterRec)) : List Str :=
  match items.find? (fun m =>
      match (m.2.printerInfo.getD {}).tonerType with
      | some l => !l.isEmpty
      | none => false) with
  | some m => ((m.2.printerInfo.getD {}).tonerType).getD []
  | none => []

/-- the representative scan: the first member whose normalized IP is good. -/
def find_rep (items : List (Nat × PrinterRec)) : Option Str :=
  items.findSome? (fun m =>
    let ip := norm_ip m.2
    if is_good_ip ip then some ip else none)

/-- plugins/tonerType/toner_type_snmp.py `_process_one`: the probe oracle
returns `none` when `get_snmp_toner_types` raises. -/
def process_one_toner (probe : Str → Option (List Str)) (ip : Str) :
    Option (List Str) :=
  if !is_good_ip ip then some [] else probe ip

/-- one iteration of the per-group loop: the resulting preset value every
member receives, and the list of representative IPs probed (a raised probe
is still a probe made; it leaves the preset empty). -/
def process_group (probe : Str → Option (List Str))
    (items : List (Nat × PrinterRec)) : List Str × List Str :=
  let preset := find_preset items
  if preset.isEmpty then
    match find_rep items with
    | some repIp =>
      match process_one_toner probe repIp with
      | some codes => (codes, [repIp])
      | none => ([], [repIp])
    | none => ([], [])
  else (preset, [])

def updateAtIdx (l : List α) (i : Nat) (f : α → α) : List α :=
  match l, i with
  | [], _ => []
  | x :: xs, 0 => f x :: xs
  | x :: xs, n + 1 => x :: updateAtIdx xs n f

/-- apply the `info["tonerType"] = list(preset)` writes, each at the
printer's position in the document. -/
def applyTonerUpdates (ps : List PrinterRec) (updates : List (Nat × List Str)) :
    List PrinterRec :=
  updates.foldl (fun acc u => updateAtIdx acc u.1 (fun p => setTonerType p u.2)) ps

/-- one group's contribution to the pass: the tonerType writes for every
member and the probes made. -/
def tonerGroupStep (probe : Str → Option (List Str))
    (acc : List (Nat × List Str) × List Str)
    (g : Str × List (Nat × PrinterRec)) : List (Nat × List Str) × List Str :=
  let pr := process_group probe g.2
  (acc.1 ++ g.2.map (fun m => (m.1, pr.1)), acc.2 ++ pr.2)

/-- the whole representative-sampling pass of `main` (no `--only-ip`):
select, group by type, process each group, write every member's
tonerType; returns the updated document and the probed IPs. -/
def toner_type_group_pass (ps : List PrinterRec) (probe : Str → Option (List Str)) :
    List PrinterRec × List Str :=
  let groups := buildGroups (toner_type_select ps)
  let acc := groups.foldl (tonerGroupStep probe) ([], [])
  (applyTonerUpdates ps acc.1, acc.2)

/-! ## the JSON document model (core/printers.py `ensure_printer_info` and
the plugin write, at full dict granularity, for the frame property) -/

inductive JValue where
  | jnull
  | jbool (b : Bool)
  | jnum (n : Int)
  | jstr (s : Str)
  | jarr (xs : List JValue)
  | jobj (fields : List (Str × JValue))

/-- Python `d.get(k)` on a JSON object. -/
def lookupKey (l : List (Str × JValue)) (k : Str) : Option JValue :=
  alistFind l k

/-- core/printers.py `ensure_printer_info` followed by
`info["printerError"] = {"problem": problem, "severity": sev}`, acting on
the raw entity dict: the existing `printerInfo` dict is kept (the write
mutates it in place); a missing or non-dict `printerInfo` is replaced by a
fresh dict. -/
def update_printer_error (prn : List (Str × JValue)) (problem sev : Str) :
    List (Str × JValue) :=
  let pi :=
    match lookupKey prn "printerInfo".toList with
    | some (.jobj l) => l
    | _ => []
  alistSet prn "printerInfo".toList
    (.jobj (alistSet pi "printerError".toList
      (.jobj [("problem".toList, .jstr problem), ("severity".toList, .jstr sev)])))

/-! ## adapters/json_store.py `JsonStore.save` (and the identical
adapters/printers_store.py `save_printers`) -/

/-- a file system: path → file contents. -/
abbrev FS := Str → Option Str

def writeFS (fs : FS) (p c : Str) : FS :=
  fun q => if q = p then some c else fs q

/-- an atomic rename of `src` over `dst` (`Path.replace`). -/
def renameFS (fs : FS) (src dst : Str) : FS :=
  fun q => if q = dst then fs src else if q = src then none else fs q

/-- the position of the last occurrence of `c` in `s`. -/
def lastIndexOf (c : Char) (s : Str) : Option Nat :=
  match s.reverse.findIdx? (· = c) with
  | some i => some (s.length - 1 - i)
  | none => none

/-- `self.path.with_suffix(".tmp")`: on the final path component, replace
the suffix (the part from the last dot, when that dot is neither first nor
last in the name) by ".tmp", else append ".tmp". -/
def with_suffix_tmp (path : Str) : Str :=
  let cut :=
    match lastIndexOf '/' path with
    | some j => (path.take (j + 1), path.drop (j + 1))
    | none => ([], path)
  let name := cut.2
  let newName :=
    match lastIndexOf '.' name with
    | some i =>
      if 0 < i ∧ i < name.length - 1 then name.take i ++ ".tmp".toList
      else name ++ ".tmp".toList
    | none => name ++ ".tmp".toList
  cut.1 ++ newName

/-- where a save attempt stops: opening the temp file raises (nothing
written), `json.dump` raises midway (the temp file holds a partial
serialization), a crash between the completed write and the rename, or
the full success path. -/
inductive SaveOutcome where
  | openTmpFail
  | midWriteFail (written : Str)
  | beforeRenameFail
  | ok

/-- adapters/json_store.py `JsonStore.save` / adapters/printers_store.py
`save_printers`: write the serialized document to `path.with_suffix(".tmp")`,
then rename it over `path`; `outcome` places the failure point. -/
def json_store_save (fs : FS) (path content : Str) (outcome : SaveOutcome) : FS :=
  let tmp := with_suffix_tmp path
  match outcome with
  | .openTmpFail => fs
  | .midWriteFail written => writeFS fs tmp written
  | .beforeRenameFail => writeFS fs tmp content
  | .ok => renameFS (writeFS fs tmp content) tmp path

/-! ## adapters/http_legacy.py and the request sequences of
adapters/ews_alerts.py `_fetch_ews_alerts` / adapters/ledm_client.py
`fetch_ledm_roots` -/

inductive TLSVersion where
  | tls1
  | tls1_2
  | tls1_3
  | systemDefault
  deriving DecidableEq

/-- the `ssl.SSLContext` configuration an adapter's pool manager uses. -/
structure TLSConfig where
  checkHostname : Bool
  minimumVersion : TLSVersion
  maximumVersion : TLSVersion
  deriving DecidableEq

/-- adapters/http_legacy.py `TLSLegacyAdapter.init_poolmanager` with the
default arguments `make_legacy_session` mounts it with: hostname
verification off, minimum TLSv1, maximum TLSv1.2. -/
def TLSLegacyAdapterCtx : TLSConfig :=
  { checkHostname := false, minimumVersion := .tls1, maximumVersion := .tls1_2 }

/-- a `requests.Session` at the granularity that matters here: the TLS
context of the adapter mounted for `https://`. -/
structure HttpSession where
  httpsTLS : TLSConfig
  deriving DecidableEq

/-- adapters/http_legacy.py `make_legacy_session`: mounts the legacy TLS
adapter on both schemes. -/
def make_legacy_session : HttpSession :=
  { httpsTLS := TLSLegacyAdapterCtx }

/-- one HTTP request a scraping probe issues: its URL, the TLS context
that governs it when the scheme is https, and the `verify=` flag. -/
structure HttpRequest where
  url : Str
  tls : TLSConfig
  verify : Bool
  deriving DecidableEq

def mkUrl (scheme ip path : Str) : Str :=
  scheme ++ "://".toList ++ ip ++ path

/-- every request of `_fetch_ews_alerts` and `fetch_ledm_roots` goes
through the session and passes `verify=False`. -/
def mkReq (sess : HttpSession) (scheme ip path : Str) : HttpRequest :=
  { url := mkUrl scheme ip path, tls := sess.httpsTLS, verify := false }

def ewsJsonPaths : List Str :=
  ["/sws/app/information/activealert/activealert.json".toList,
   "/sws/app/information/activealert/activeAlert.json".toList,
   "/sws/app/information/activealert/active_alert.json".toList,
   "/sws/app/information/activealert/alert.json".toList]

/-- the JSON-path loop of `_fetch_ews_alerts`: request each path in turn,
stopping at the first URL whose body yields a non-empty alert list (the
oracle stands for `_session_probe_get` + parse + extract: `[]` covers a
failed request, a non-JSON body and an empty extraction alike — none of
which change the requests' TLS settings). -/
def probeJsonPaths (oracle : Str → List EwsAlert) (sess : HttpSession)
    (ip scheme : Str) : List Str → List HttpRequest × Option (List EwsAlert)
  | [] => ([], none)
  | p :: rest =>
    let req := mkReq sess scheme ip p
    let alerts := oracle (mkUrl scheme ip p)
    if alerts.isEmpty then
      let r := probeJsonPaths oracle sess ip scheme rest
      (req :: r.1, r.2)
    else ([req], some alerts)

/-- one scheme pass of `_fetch_ews_alerts`: the warm-up request to
`/sws/index.html`, the four JSON paths, then the HTML page. -/
def ewsSchemePass (oracle : Str → List EwsAlert) (sess : HttpSession)
    (ip scheme : Str) : List HttpRequest × Option (List EwsAlert) :=
  let r0 := mkReq sess scheme ip "/sws/index.html".toList
  let pj := probeJsonPaths oracle sess ip scheme ewsJsonPaths
  match pj.2 with
  | some a => (r0 :: pj.1, some a)
  | none =>
    let htmlPath := "/sws/app/information/activealert/activealert.html".toList
    let rh := mkReq sess scheme ip htmlPath
    let ah := oracle (mkUrl scheme ip htmlPath)
    (r0 :: pj.1 ++ [rh], if ah.isEmpty then none else some ah)

/-- adapters/ews_alerts.py `_fetch_ews_alerts`: https first, then http;
returns the full request trace and the alerts. -/
def fetch_ews_alertsT (oracle : Str → List EwsAlert) (ip : Str) :
    List HttpRequest × List EwsAlert :=
  let sess := make_legacy_session
  let h := ewsSchemePass oracle sess ip "https".toList
  match h.2 with
  | some a => (h.1, a)
  | none =>
    let p := ewsSchemePass oracle sess ip "http".toList
    (h.1 ++ p.1, p.2.getD [])

/-- adapters/ledm_client.py `_try_get`: https then http, stopping at the
first URL whose response is 200, non-empty and not an HTML page (the
boolean oracle stands for exactly that check). -/
def tryGetTrace (oracle : Str → Bool) (sess : HttpSession) (ip path : Str) :
    List HttpRequest × Bool :=
  let r1 := mkReq sess "https".toList ip path
  if oracle (mkUrl "https".toList ip path) then ([r1], true)
  else
    let r2 := mkReq sess "http".toList ip path
    ([r1, r2], oracle (mkUrl "http".toList ip path))

/-- adapters/ledm_client.py `fetch_ledm_roots`: the request trace of the
status fetch followed by the event-table fetch, all through the legacy
session. -/
def fetch_ledm_rootsT (oracle : Str → Bool) (ip : Str) : List HttpRequest :=
  let sess := make_legacy_session
  (tryGetTrace oracle sess ip "/DevMgmt/ProductStatusDyn.xml".toList).1 ++
    (tryGetTrace oracle sess ip "/EventMgmt/EventTable.xml".toList).1

/-! ## adapters/snmp_toner.py -/

/-- Python `str.strip(".")`. -/
def stripDots (s : Str) : Str :=
  ((s.dropWhile (· = '.')).reverse.dropWhile (· = '.')).reverse

/-- adapters/snmp_toner.py `_to_text` on a walk value: octet strings keep
their text (the `b'...'` wrappers of a stringified bytes object are
removed), ints are stringified. -/
def snmp_toner_to_text (v : SnmpValue) : Str :=
  match v with
  | .vint n => intToText n
  | .vstr s =>
    if startsWithL "b'".toList s && startsWithL "'".toList s.reverse then
      (s.drop 2).dropLast
    else if startsWithL ['b', '"'] s && startsWithL ['"'] s.reverse then
      (s.drop 2).dropLast
    else s

/-- the scan loop of `_parse_supplies_oid`: for `i in range(len(parts)-5)`,
at the first window equal to ["43","11","1","1"] take `parts[i+4]` as the
column and `int(parts[i+6])` as the row index; an out-of-range access or a
failed int conversion raises inside the `try` and yields `None`. -/
def suppliesScan (parts : List Str) (i fuel : Nat) : Option (Str × Int) :=
  match fuel with
  | 0 => none
  | fuel + 1 =>
    if i < parts.length - 5 then
      if (parts.drop i).take 4 = ["43".toList, "11".toList, "1".toList, "1".toList] then
        let col := (parts.drop (i + 4)).headD []
        match parts[i + 6]? with
        | none => none
        | some t =>
          match pyIntOfText t with
          | none => none
          | some idx => some (col, idx)
      else suppliesScan parts (i + 1) fuel
    else none

/-- adapters/snmp_toner.py `_parse_supplies_oid`. -/
def parse_supplies_oid (oid : Str) : Option (Str × Int) :=
  let parts := splitOnChar '.' (stripDots oid)
  suppliesScan parts 0 parts.length

/-- the scan loop of `_parse_colorant_oid`: window ["43","12","1","1"] with
`parts[i+4] = "4"`; a row whose `parts[i+5]` is not "1" is skipped
(`continue`); then marker = `int(parts[i+6])`, color = `int(parts[i+7])`,
with any raise yielding `None`. -/
def colorantScan (parts : List Str) (i fuel : Nat) : Option (Int × Int) :=
  match fuel with
  | 0 => none
  | fuel + 1 =>
    if i < parts.length - 6 then
      if (parts.drop i).take 4 = ["43".toList, "12".toList, "1".toList, "1".toList] &&
         (parts.drop (i + 4)).headD [] = "4".toList then
        if (parts.drop (i + 5)).headD [] ≠ "1".toList then
          colorantScan parts (i + 1) fuel
        else
          match parts[i + 6]?, parts[i + 7]? with
          | some t6, some t7 =>
            (match pyIntOfText t6, pyIntOfText t7 with
             | some marker, some color => some (marker, color)
             | _, _ => none)
          | _, _ => none
      else colorantScan parts (i + 1) fuel
    else none

/-- adapters/snmp_toner.py `_parse_colorant_oid`. -/
def parse_colorant_oid (oid : Str) : Option (Int × Int) :=
  let parts := splitOnChar '.' (stripDots oid)
  colorantScan parts 0 parts.length

/-- one row of the supplies table as `get_snmp_toner` accumulates it
(columns 2,3,4,5,7,8,9 parse as ints — a failed parse stores `None` — and
column 6 stores the text). -/
structure TRow where
  markerIdx : Option Int := none
  colorIdx : Option Int := none
  cls : Option Int := none
  typ : Option Int := none
  desc : Option Str := none
  unit : Option Int := none
  maxcap : Option Int := none
  lvl : Option Int := none
  deriving DecidableEq

/-- the column dispatch of the supplies-walk loop. -/
def applyTonerCol (col : Str) (value : SnmpValue) (row : TRow) : TRow :=
  if col = "2".toList then { row with markerIdx := pyIntOfValue value }
  else if col = "3".toList then { row with colorIdx := pyIntOfValue value }
  else if col = "4".toList then { row with cls := pyIntOfValue value }
  else if col = "5".toList then { row with typ := pyIntOfValue value }
  else if col = "7".toList then { row with unit := pyIntOfValue value }
  else if col = "8".toList then { row with maxcap := pyIntOfValue value }
  else if col = "9".toList then { row with lvl := pyIntOfValue value }
  else if col = "6".toList then { row with desc := some (snmp_toner_to_text value) }
  else row

/-- adapters/snmp_toner.py `PRT_SUPPLY_TYPE_TONER`. -/
def PRT_SUPPLY_TYPE_TONER : List Int := [3, 5, 6, 10, 21]

/-- adapters/snmp_toner.py `_compute_percent`; Python computes
`round(100.0*level/maxcap)` in floating point with banker's rounding,
modelled here as exact half-to-even rounding of the rational (the float
can differ from the exact value only on ties unrepresentable in binary,
and no claim below depends on a percent value). -/
def roundHalfEven (num denom : Int) : Int :=
  let q := num / denom
  let r := num % denom
  if 2 * r < denom then q
  else if 2 * r > denom then q + 1
  else if q % 2 = 0 then q else q + 1

def NEG_UNKNOWN : List Int := [-1, -2, -3]

def compute_percent (level maxcap unit : Option Int) : Option Int :=
  match level with
  | none => none
  | some l =>
    if l ∈ NEG_UNKNOWN then none
    else if unit = some 19 then some (max 0 (min 100 l))
    else
      match maxcap with
      | some m => if m > 0 ∧ l ≥ 0 then some (max 0 (min 100 (roundHalfEven (100 * l) m))) else none
      | none => none

/-- adapters/snmp_toner.py `_pct_with_symbol`. -/
def pct_with_symbol (v : Option Int) : Option Str :=
  v.map (fun n => intToText n ++ "%".toList)

/-- Python `a or b` where both sides are ints (0 is falsy). -/
def pyOrInt (a : Option Int) (b : Int) : Int :=
  match a with
  | some n => if n ≠ 0 then n else b
  | none => b

/-- Python `str.title()` (ASCII model): a letter after a non-letter is
upper-cased, a letter after a letter lower-cased. -/
def pyTitleGo (prevAlpha : Bool) : Str → Str
  | [] => []
  | c :: cs =>
    (if c.isAlpha then (if prevAlpha then charLowerA c else charUpperA c) else c) ::
      pyTitleGo c.isAlpha cs

def pyTitle (s : Str) : Str := pyTitleGo false s

/-- the `pick` helper of `_friendly_color`. -/
def friendlyPick (s : Option Str) : Option Str :=
  match s with
  | none => none
  | some s0 =>
    if s0 = [] then none
    else
      let t := strLower (pyStrip s0)
      match ["black", "cyan", "magenta", "yellow", "gray", "grey",
             "photo black"].find? (fun k => hasSub k.toList t) with
      | some k => some k.toList
      | none =>
        match [("שחור", "black"), ("צהוב", "yellow"), ("מגנטה", "magenta"),
               ("סיאן", "cyan")].find? (fun he => hasSub he.1.toList t) with
        | some he => some he.2.toList
        | none => some t

/-- adapters/snmp_toner.py `_friendly_color`. -/
def friendly_color (name fallback_desc : Option Str) : Str :=
  pyTitle (pyOrS (pyOrT (friendlyPick name) (friendlyPick fallback_desc)) "unknown".toList)

/-- one cartridge entry of the result. -/
structure TonerEntry where
  cartridge : Str
  remaining_percent : Option Str
  deriving DecidableEq

/-- adapters/snmp_toner.py `get_snmp_toner`: walk the supplies table, keep
the toner-class rows, walk the colorant table for names, and build the
cartridge list; the status variable compares the cartridges list against
`None`, and the list-typed variable is never `None`. -/
def get_snmp_toner (net : SnmpNet) (ip : Str) : Str × List TonerEntry :=
  let rows : List (Int × TRow) :=
    (walk_oid net ip "1.3.6.1.2.1.43.11.1.1".toList).foldl (fun rows p =>
      match parse_supplies_oid p.1 with
      | none => rows
      | some (col, idx) => updateRowAt ({} : TRow) rows idx (applyTonerCol col p.2)) []
  let toner_rows := rows.filter (fun r =>
    match r.2.typ with
    | some t => t ∈ PRT_SUPPLY_TYPE_TONER
    | none => false)
  let color_map : List ((Int × Int) × Str) :=
    (walk_oid net ip "1.3.6.1.2.1.43.12.1.1.4".toList).foldl (fun m p =>
      match parse_colorant_oid p.1 with
      | none => m
      | some key => alistSet m key (snmp_toner_to_text p.2)) []
  let cartridges := (sortRowsByKey toner_rows).map (fun r =>
    let percent := compute_percent r.2.lvl r.2.maxcap r.2.unit
    let marker := pyOrInt r.2.markerIdx 1
    let color := pyOrInt r.2.colorIdx 0
    let colorantName := alistFind color_map (marker, color)
    ({ cartridge := friendly_color colorantName r.2.desc,
       remaining_percent := pct_with_symbol percent } : TonerEntry))
  let cartridgesVar : Option (List TonerEntry) := some cartridges
  let status := match cartridgesVar with
    | some _ => "online".toList
    | none => "offline".toList
  (status, if cartridges.isEmpty then [] else cartridges)

/-! ## the canonical severity taxonomy and shared lemmas -/

def canonicalSeverities : List Str :=
  ["critical".toList, "warning".toList, "informational".toList]

lemma ledm_triage_three_mem (s : Option Str) :
    ledm_triage_three s ∈ canonicalSeverities := by
  cases s with
  | none => simp [ledm_triage_three, canonicalSeverities]
  | some sv =>
    simp only [ledm_triage_three]
    split_ifs <;> simp [canonicalSeverities]

lemma ews_triage_three_mem (s : Option Str) :
    ews_triage_three s ∈ canonicalSeverities := by
  cases s with
  | none => simp [ews_triage_three, canonicalSeverities]
  | some sv =>
    simp only [ews_triage_three]
    split_ifs <;> simp [canonicalSeverities]

lemma derive_severity_mem (p : Option Str) :
    derive_severity_from_problem p ∈ canonicalSeverities := by
  cases p with
  | none => simp [derive_severity_from_problem, canonicalSeverities]
  | some s =>
    simp only [derive_severity_from_problem]
    split_ifs <;> simp [canonicalSeverities]

lemma canonical_ne_nil {s : Str} (h : s ∈ canonicalSeverities) : s ≠ [] := by
  simp only [canonicalSeverities, List.mem_cons, List.mem_singleton] at h
  rcases h with rfl | rfl | h
  · simp
  · simp
  · simp only [List.not_mem_nil, or_false] at h
    subst h
    simp

lemma decide_message_snd {rows : List (Int × ARow)} {r : Str × Str}
    (h : decide_message_from_rows rows = some r) :
    r.2 = "critical".toList ∨ r.2 = "warning".toList := by
  simp only [decide_message_from_rows] at h
  split at h
  · exact absurd h (by simp)
  · split at h
    · exact absurd h (by simp)
    all_goals
      injection h with h
      subst h
      dsimp only
      split <;> simp

lemma hr_errorstate_snd {net : SnmpNet} {ip : Str} {h : Str × Str}
    (hh : snmp_hr_errorstate net ip = some h) :
    h.2 = "critical".toList ∨ h.2 = "warning".toList := by
  simp only [snmp_hr_errorstate] at hh
  split at hh
  · exact absurd hh (by simp)
  · split at hh
    · exact absurd hh (by simp)
    · split at hh <;> (injection hh with hh; subst hh; simp)

lemma pyOrS_mem {a : Option Str} {b : Str}
    (ha : ∀ s, a = some s → s ∈ canonicalSeverities) (hb : b ∈ canonicalSeverities) :
    pyOrS a b ∈ canonicalSeverities := by
  unfold pyOrS
  cases a with
  | none => exact hb
  | some s =>
    by_cases hs : s = []
    · simp [hs, hb]
    · simpa [hs] using ha s rfl

lemma pyOrT_mem {a b : Option Str}
    (ha : ∀ s, a = some s → s ∈ canonicalSeverities)
    (hb : ∀ s, b = some s → s ∈ canonicalSeverities) :
    ∀ s, pyOrT a b = some s → s ∈ canonicalSeverities := by
  intro s h
  unfold pyOrT at h
  split at h
  · exact ha s h
  · exact hb s h

lemma event_fold_sev_mem :
    ∀ (evs : List LedmEvent) (acc : Option (Option Str × Option Str × Str) × Int),
      (∀ x, acc.1 = some x → x.2.2 ∈ canonicalSeverities) →
      ∀ x, (evs.foldl ledmEventStep acc).1 = some x → x.2.2 ∈ canonicalSeverities := by
  intro evs
  induction evs with
  | nil => intro acc hacc x hx; exact hacc x hx
  | cons ev rest ih =>
    intro acc hacc x hx
    refine ih (ledmEventStep acc ev) ?_ x hx
    intro y hy
    unfold ledmEventStep at hy
    split at hy
    · injection hy with hy
      subst hy
      simpa [ledmEventPick] using ledm_triage_three_mem (some (ledmEventSevRaw ev))
    · exact hacc y hy

lemma best_event_snd_mem {events : Option (List LedmEvent)} {s : Str}
    (h : (best_event_from_table events).2.2 = some s) : s ∈ canonicalSeverities := by
  unfold best_event_from_table at h
  cases events with
  | none => exact absurd h (by simp)
  | some evs =>
    simp only at h
    split at h
    · rename_i c d s0 heq
      injection h with h
      subst h
      exact event_fold_sev_mem evs (none, -1) (by intro x hx; exact absurd hx (by simp))
        (c, d, s0) heq
    · exact absurd h (by simp)

lemma alert_fold_sev_mem :
    ∀ (als : List LedmAlert) (acc : Option (Option Str × Option Str × Str) × Int),
      (∀ x, acc.1 = some x → x.2.2 ∈ canonicalSeverities) →
      ∀ x, (als.foldl ledmAlertStep acc).1 = some x → x.2.2 ∈ canonicalSeverities := by
  intro als
  induction als with
  | nil => intro acc hacc x hx; exact hacc x hx
  | cons a rest ih =>
    intro acc hacc x hx
    refine ih (ledmAlertStep acc a) ?_ x hx
    intro y hy
    simp only [ledmAlertStep] at hy
    split at hy
    · injection hy with hy
      subst hy
      simpa using ledm_triage_three_mem (some (ledmAlertSevRaw a))
    · exact hacc y hy

lemma best_alert_snd_mem {status : Option LedmStatusRoot} {s : Str}
    (h : (best_alert_from_status status).2.2 = some s) : s ∈ canonicalSeverities := by
  unfold best_alert_from_status at h
  cases status with
  | none => exact absurd h (by simp)
  | some st =>
    simp only at h
    split at h
    · exact absurd h (by simp)
    · split at h
      · rename_i c d s0 heq
        injection h with h
        subst h
        exact alert_fold_sev_mem st.alerts (none, -1)
          (by intro x hx; exact absurd hx (by simp)) (c, d, s0) heq
      · exact absurd h (by simp)

lemma ledm_normalize_snd (p s : Option Str) :
    (ledm_normalize_problem_and_severity p s).2 = some "informational".toList ∨
      (ledm_normalize_problem_and_severity p s).2 = s := by
  simp only [ledm_normalize_problem_and_severity]
  split_ifs <;> simp

lemma ledm_final_mem (problem severity : Str) (h : severity ∈ canonicalSeverities) :
    ((if truthyT (ledm_normalize_problem_and_severity (some problem) (some severity)).2
      then (ledm_normalize_problem_and_severity (some problem) (some severity)).2
      else some "informational".toList).getD []) ∈ canonicalSeverities := by
  rcases ledm_normalize_snd (some problem) (some severity) with hn | hn <;> rw [hn]
  · simp [truthyT, canonicalSeverities]
  · have hne := canonical_ne_nil h
    simp [truthyT, hne, h]

lemma pick_alert_snd_mem (alerts : List EwsAlert) (catalog : List (Str × CatEntry)) :
    (pick_alert alerts catalog).2.2 ∈ canonicalSeverities := by
  simp only [pick_alert]
  split
  · simp [canonicalSeverities]
  · split
    · simp [canonicalSeverities]
    · dsimp only
      split
      · exact ews_triage_three_mem _
      · exact ews_triage_three_mem _

lemma ews_normalize_snd (p : Str) :
    (ews_normalize_problem_and_severity p).2 = none ∨
      (ews_normalize_problem_and_severity p).2 = some "informational".toList := by
  simp only [ews_normalize_problem_and_severity]
  split_ifs <;> simp

/-- C1: for every input, the severity returned by `process_snmp_alerts`,
`get_ledm_problem_and_severity` and `get_ews_problem_and_severity` is one
of exactly the three canonical values "critical", "warning",
"informational"; no raw vendor token is returned as the severity. -/
theorem normalizer_severity_canonical :
    (∀ (net : SnmpNet) (ip : Str) (r : Str × Str),
        process_snmp_alerts net ip = Except.ok r → r.2 ∈ canonicalSeverities) ∧
    (∀ (status : Option LedmStatusRoot) (events : Option (List LedmEvent)),
        (get_ledm_problem_and_severity status events).2 ∈ canonicalSeverities) ∧
    (∀ (alerts : List EwsAlert) (catalog : List (Str × CatEntry)),
        (get_ews_problem_and_severity alerts catalog).2 ∈ canonicalSeverities) := by
  refine ⟨?_, ?_, ?_⟩
  · intro net ip r h
    simp only [process_snmp_alerts, process_snmp_alertsT] at h
    cases hrows : snmp_alert_rows net ip () with
    | error e => rw [hrows] at h; simp [Except.map, Bind.bind, Except.bind] at h
    | ok rows =>
      rw [hrows] at h
      simp only [Bind.bind, Except.bind] at h
      cases hdec : (if rows ≠ [] then decide_message_from_rows rows else none) with
      | some decided =>
        rw [hdec] at h
        simp only [Except.map, pure, Except.pure] at h
        injection h with h
        by_cases hne : rows = []
        · rw [if_neg (by simp [hne])] at hdec
          exact absurd hdec (by simp)
        · rw [if_pos (by simpa using hne)] at hdec
          rcases decide_message_snd hdec with h2 | h2 <;>
            simp [← h, h2, canonicalSeverities]
      | none =>
        rw [hdec] at h
        cases hhr : snmp_hr_errorstate net ip with
        | some hr =>
          rw [hhr] at h
          simp only [Except.map, pure, Except.pure] at h
          injection h with h
          rcases hr_errorstate_snd hhr with h2 | h2 <;>
            simp [← h, h2, canonicalSeverities]
        | none =>
          rw [hhr] at h
          simp only [Except.map, pure, Except.pure] at h
          injection h with h
          simp [← h, canonicalSeverities]
  · intro status events
    simp only [get_ledm_problem_and_severity]
    refine ledm_final_mem _ _ ?_
    apply pyOrS_mem
    · exact pyOrT_mem (fun s hs => best_event_snd_mem hs) (fun s hs => best_alert_snd_mem hs)
    · exact derive_severity_mem _
  · intro alerts catalog
    simp only [get_ews_problem_and_severity]
    apply pyOrS_mem
    · intro s hs
      injection hs with hs
      subst hs
      apply pyOrS_mem
      · intro s hs
        rcases ews_normalize_snd (short_label_for (pick_alert alerts catalog).1
            (pick_alert alerts catalog).2.1 catalog).1 with hn | hn
        · rw [hn] at hs; exact absurd hs (by simp)
        · rw [hn] at hs
          injection hs with hs
          subst hs
          simp [canonicalSeverities]
      · split
        · exact ews_triage_three_mem _
        · exact pick_alert_snd_mem alerts catalog
    · simp [canonicalSeverities]

/-- the door-open device of the spec's end-to-end scenario: one alert row
with severity 4 (critical) and description "Door open". -/
def netDoorOpenW : SnmpNet := fun _ oid =>
  if oid = ALERT_TABLE_ROOT then
    .rows [("1.3.6.1.2.1.43.18.1.1.2.1".toList, .vint 4),
           ("1.3.6.1.2.1.43.18.1.1.8.1".toList, .vstr "Door open".toList)]
  else .timeout

theorem normalizer_severity_canonical_witness :
    process_snmp_alerts netDoorOpenW "10.0.0.5".toList =
      Except.ok ("Door open".toList, "critical".toList) ∧
    ("Door open".toList, "critical".toList).2 ∈ canonicalSeverities :=
  ⟨by rfl,
   normalizer_severity_canonical.1 netDoorOpenW "10.0.0.5".toList
     ("Door open".toList, "critical".toList) (by rfl)⟩

/-- C9: an absent or placeholder address short-circuits the per-printer
SNMP alert probe to ("Normal", "informational") with no network walk
attempted. -/
theorem placeholder_address_short_circuits :
    ∀ (prn : PrinterRec) (net : SnmpNet),
      strLower (pyStrip (norm_ip prn)) ∈
        [([] : Str), "-".toList, "null".toList, "0.0.0.0".toList] →
      process_one_printer net prn =
        Except.ok (("Normal".toList, "informational".toList), []) := by
  intro prn net h
  have hmem : strLower (pyStrip (norm_ip prn)) ∈ coreBadIps := by
    simp only [List.mem_cons, List.mem_singleton, List.not_mem_nil, or_false] at h
    rcases h with h | h | h | h <;> simp [coreBadIps, h]
  have hbad : is_good_ip (norm_ip prn) = false := by
    simp [is_good_ip, hmem]
  simp only [process_one_printer, hbad]
  rfl

theorem placeholder_address_short_circuits_witness :
    strLower (pyStrip (norm_ip { printerIPKey := some "-".toList })) ∈
      [([] : Str), "-".toList, "null".toList, "0.0.0.0".toList] ∧
    process_one_printer netDoorOpenW { printerIPKey := some "-".toList } =
      Except.ok (("Normal".toList, "informational".toList), []) :=
  ⟨by decide,
   placeholder_address_short_circuits { printerIPKey := some "-".toList } netDoorOpenW
     (by decide)⟩

/-- C10: `get_snmp_toner` never returns "offline": the cartridges variable
is a list on every path, so the status is always "online"; in particular a
device whose walks all time out (swallowed into empty iterations by
`walk_oid`) is reported as ("online", []). -/
theorem get_snmp_toner_always_online :
    (∀ (net : SnmpNet) (ip : Str), (get_snmp_toner net ip).1 = "online".toList) ∧
    (∀ ip : Str,
        get_snmp_toner (fun _ _ => WalkOutcome.timeout) ip = ("online".toList, [])) := by
  constructor
  · intro net ip
    rfl
  · intro ip
    by_cases hb : is_bad_host ip <;> simp [get_snmp_toner, walk_oid, hb] <;> rfl

lemma alistFind_set_self [DecidableEq κ] (l : List (κ × α)) (k : κ) (v : α) :
    alistFind (alistSet l k v) k = some v := by
  induction l with
  | nil => simp [alistSet, alistFind]
  | cons p rest ih =>
    obtain ⟨k0, v0⟩ := p
    by_cases hk : k0 = k
    · simp [alistSet, hk, alistFind]
    · simp [alistSet, hk, alistFind, ih]

lemma alistFind_set_ne [DecidableEq κ] (l : List (κ × α)) (k k' : κ) (v : α)
    (h : k' ≠ k) : alistFind (alistSet l k v) k' = alistFind l k' := by
  induction l with
  | nil => simp [alistSet, alistFind, Ne.symm h]
  | cons p rest ih =>
    obtain ⟨k0, v0⟩ := p
    by_cases hk : k0 = k
    · subst hk
      simp [alistSet, alistFind, Ne.symm h]
    · by_cases hk' : k0 = k'
      · subst hk'
        simp [alistSet, hk, alistFind]
      · simp [alistSet, hk, alistFind, hk', ih]

/-- C7: an errorState-producing update writes only the `printerError`
field of the entity's `printerInfo` sub-record: every other key of the
entity dict is untouched, and when `printerInfo` is a dict, every key of
it other than `printerError` is untouched. -/
theorem update_printer_error_frame :
    (∀ (prn : List (Str × JValue)) (problem sev : Str) (k : Str),
        k ≠ "printerInfo".toList →
        lookupKey (update_printer_error prn problem sev) k = lookupKey prn k) ∧
    (∀ (prn : List (Str × JValue)) (problem sev : Str) (pi : List (Str × JValue)),
        lookupKey prn "printerInfo".toList = some (.jobj pi) →
        ∃ pi',
          lookupKey (update_printer_error prn problem sev) "printerInfo".toList =
            some (.jobj pi') ∧
          lookupKey pi' "printerError".toList =
            some (.jobj [("problem".toList, .jstr problem),
                         ("severity".toList, .jstr sev)]) ∧
          ∀ k, k ≠ "printerError".toList → lookupKey pi' k = lookupKey pi k) := by
  constructor
  · intro prn problem sev k hk
    unfold update_printer_error lookupKey
    exact alistFind_set_ne _ _ _ _ hk
  · intro prn problem sev pi hpi
    refine ⟨alistSet pi "printerError".toList
      (.jobj [("problem".toList, .jstr problem), ("severity".toList, .jstr sev)]),
      ?_, ?_, ?_⟩
    · unfold update_printer_error lookupKey
      unfold lookupKey at hpi
      rw [hpi]
      exact alistFind_set_self _ _ _
    · unfold lookupKey
      exact alistFind_set_self _ _ _
    · intro k hk
      unfold lookupKey
      exact alistFind_set_ne _ _ _ _ hk

theorem update_printer_error_frame_witness :
    (("ID".toList : Str) ≠ "printerInfo".toList ∧
      lookupKey (update_printer_error
          [("ID".toList, .jstr "7".toList),
           ("printerInfo".toList, .jobj [("tonerType".toList, .jarr [.jstr "X".toList])])]
          "Door open".toList "critical".toList) "ID".toList =
        lookupKey [("ID".toList, .jstr "7".toList),
           ("printerInfo".toList, .jobj [("tonerType".toList, .jarr [.jstr "X".toList])])]
          "ID".toList) ∧
    ∃ pi',
      lookupKey (update_printer_error
          [("ID".toList, .jstr "7".toList),
           ("printerInfo".toList, .jobj [("tonerType".toList, .jarr [.jstr "X".toList])])]
          "Door open".toList "critical".toList) "printerInfo".toList =
        some (.jobj pi') ∧
      lookupKey pi' "printerError".toList =
        some (.jobj [("problem".toList, .jstr "Door open".toList),
                     ("severity".toList, .jstr "critical".toList)]) ∧
      ∀ k, k ≠ "printerError".toList →
        lookupKey pi' k =
          lookupKey [("tonerType".toList, JValue.jarr [.jstr "X".toList])] k :=
  ⟨⟨by decide,
    update_printer_error_frame.1 _ "Door open".toList "critical".toList
      "ID".toList (by decide)⟩,
   update_printer_error_frame.2 _ "Door open".toList "critical".toList
     [("tonerType".toList, JValue.jarr [.jstr "X".toList])] (by rfl)⟩

/-! ## C5: timeout vs. empty walk -/

/-- a device that times out on every walk. -/
def netAllTimeoutW : SnmpNet := fun _ _ => WalkOutcome.timeout

/-- C5 counterexample: against a reachable address whose every SNMP walk
times out, `process_snmp_alerts` still performs its network walks (the
trace lists both) and returns the success result ("Normal",
"informational") — the claimed distinct probe-failure outcome for a
timed-out target does not exist. -/
theorem timeout_reported_as_success_counterexample :
    process_snmp_alertsT netAllTimeoutW "10.0.0.5".toList =
      Except.ok (("Normal".toList, "informational".toList),
        [("10.0.0.5".toList, ALERT_TABLE_ROOT),
         ("10.0.0.5".toList, HR_PRN_ERRORSTATE_BASE)]) := by rfl

lemma all_empty_walks_normal (net : SnmpNet) (ip : Str)
    (hw : ∀ oid, walk_oid net ip oid = []) :
    process_snmp_alerts net ip =
      Except.ok ("Normal".toList, "informational".toList) := by
  simp [process_snmp_alerts, process_snmp_alertsT, snmp_alert_rows,
    snmp_hr_errorstate, hw, decide_message_from_rows, Except.map, pure, Except.pure,
    Bind.bind, Except.bind]

/-- C5 amended: `walk_oid` swallows a timeout into an empty iteration, so
`process_snmp_alerts` cannot distinguish a timed-out target from a
well-formed empty table walk — both resolve to the success result
("Normal", "informational"), and no probe-failure outcome carrying a
diagnostic reason is produced. -/
theorem timeout_indistinguishable_from_empty :
    ∀ (net netE : SnmpNet) (ip : Str),
      (∀ oid, net ip oid = WalkOutcome.timeout) →
      (∀ oid, netE ip oid = WalkOutcome.rows []) →
      process_snmp_alerts net ip =
        Except.ok ("Normal".toList, "informational".toList) ∧
      process_snmp_alerts netE ip = process_snmp_alerts net ip := by
  intro net netE ip h hE
  have hw : ∀ oid, walk_oid net ip oid = [] := by
    intro oid
    unfold walk_oid
    rw [h oid]
    split <;> rfl
  have hwE : ∀ oid, walk_oid netE ip oid = [] := by
    intro oid
    unfold walk_oid
    rw [hE oid]
    split <;> rfl
  have h1 := all_empty_walks_normal net ip hw
  have h2 := all_empty_walks_normal netE ip hwE
  exact ⟨h1, by rw [h1, h2]⟩

theorem timeout_indistinguishable_from_empty_witness :
    (∀ oid, netAllTimeoutW "10.0.0.5".toList oid = WalkOutcome.timeout) ∧
    process_snmp_alerts netAllTimeoutW "10.0.0.5".toList =
      Except.ok ("Normal".toList, "informational".toList) :=
  ⟨fun _ => rfl,
   (timeout_indistinguishable_from_empty netAllTimeoutW
     (fun _ _ => WalkOutcome.rows []) "10.0.0.5".toList
     (fun _ => rfl) (fun _ => rfl)).1⟩

/-! ## C3: atomic save -/

/-- a file system holding one document whose name already ends in
".tmp". -/
def tmpNamedFS : FS :=
  fun q => if q = "printers.tmp".toList then some "OLD".toList else none

/-- C3 counterexample: for a document stored at "printers.tmp",
`with_suffix(".tmp")` is the document path itself, so the temp-file write
truncates the original: a failure during `json.dump` leaves the partial
write "PART" in place of the original "OLD" — the original is not
byte-identical to its pre-run state. -/
theorem atomic_save_counterexample :
    with_suffix_tmp "printers.tmp".toList = "printers.tmp".toList ∧
    tmpNamedFS "printers.tmp".toList = some "OLD".toList ∧
    json_store_save tmpNamedFS "printers.tmp".toList "NEW".toList
        (SaveOutcome.midWriteFail "PART".toList) "printers.tmp".toList =
      some "PART".toList := ⟨by rfl, by rfl, by rfl⟩

/-- C3 amended: whenever the save fails before the final rename, the
original document is unchanged — provided the document path's own
`.with_suffix(".tmp")` differs from the path (that is, the document's name
does not already end in ".tmp"; when it does, the temp file *is* the
document and a mid-write failure can truncate it). -/
theorem atomic_save_preserves_original :
    ∀ (fs : FS) (path content : Str) (outcome : SaveOutcome),
      outcome ≠ SaveOutcome.ok →
      with_suffix_tmp path ≠ path →
      json_store_save fs path content outcome path = fs path := by
  intro fs path content o ho htmp
  cases o with
  | openTmpFail => rfl
  | midWriteFail w => simp [json_store_save, writeFS, Ne.symm htmp]
  | beforeRenameFail => simp [json_store_save, writeFS, Ne.symm htmp]
  | ok => exact absurd rfl ho

/-- a file system holding the inventory document at "printers.json". -/
def jsonNamedFS : FS :=
  fun q => if q = "printers.json".toList then some "OLD".toList else none

theorem atomic_save_preserves_original_witness :
    (SaveOutcome.midWriteFail "PART".toList ≠ SaveOutcome.ok) ∧
    with_suffix_tmp "printers.json".toList ≠ "printers.json".toList ∧
    json_store_save jsonNamedFS "printers.json".toList "NEW".toList
        (SaveOutcome.midWriteFail "PART".toList) "printers.json".toList =
      jsonNamedFS "printers.json".toList :=
  ⟨fun h => SaveOutcome.noConfusion h, by decide,
   atomic_save_preserves_original jsonNamedFS "printers.json".toList "NEW".toList
     (SaveOutcome.midWriteFail "PART".toList) (fun h => SaveOutcome.noConfusion h)
     (by decide)⟩

/-! ## C6: legacy TLS on the first attempt -/

/-- C6 counterexample: with a device that answers nothing useful, the very
first request of both scraping fetchers already travels through the legacy
session — hostname verification disabled, minimum protocol TLSv1,
`verify=False` — so the weakened TLS settings are used on the first
attempt, not only after a handshake failure of a modern-TLS attempt. -/
theorem legacy_tls_first_attempt_counterexample :
    ((fetch_ews_alertsT (fun _ => []) "10.0.0.5".toList).1.head?).map
        (fun r => (r.tls, r.verify)) = some (TLSLegacyAdapterCtx, false) ∧
    ((fetch_ledm_rootsT (fun _ => false) "10.0.0.5".toList).head?).map
        (fun r => (r.tls, r.verify)) = some (TLSLegacyAdapterCtx, false) ∧
    TLSLegacyAdapterCtx.checkHostname = false ∧
    TLSLegacyAdapterCtx.minimumVersion = TLSVersion.tls1 :=
  ⟨by rfl, by rfl, by rfl, by rfl⟩

lemma probeJsonPaths_tls {oracle : Str → List EwsAlert} {sess : HttpSession}
    {ip scheme : Str} :
    ∀ (paths : List Str) (r : HttpRequest),
      r ∈ (probeJsonPaths oracle sess ip scheme paths).1 →
      r.tls = sess.httpsTLS ∧ r.verify = false := by
  intro paths
  induction paths with
  | nil => intro r hr; simp [probeJsonPaths] at hr
  | cons p rest ih =>
    intro r hr
    simp only [probeJsonPaths] at hr
    split at hr
    · simp only [List.mem_cons] at hr
      rcases hr with rfl | hr
      · exact ⟨rfl, rfl⟩
      · exact ih r hr
    · simp only [List.mem_singleton] at hr
      subst hr
      exact ⟨rfl, rfl⟩

lemma ewsSchemePass_tls {oracle : Str → List EwsAlert} {sess : HttpSession}
    {ip scheme : Str} {r : HttpRequest}
    (hr : r ∈ (ewsSchemePass oracle sess ip scheme).1) :
    r.tls = sess.httpsTLS ∧ r.verify = false := by
  simp only [ewsSchemePass] at hr
  split at hr
  · rcases List.mem_cons.mp hr with rfl | hr
    · exact ⟨rfl, rfl⟩
    · exact probeJsonPaths_tls _ r hr
  · rcases List.mem_cons.mp hr with rfl | hr
    · exact ⟨rfl, rfl⟩
    · rcases List.mem_append.mp hr with hr | hr
      · exact probeJsonPaths_tls _ r hr
      · obtain rfl := List.mem_singleton.mp hr
        exact ⟨rfl, rfl⟩

/-- C6 amended: the scraping fetchers make *every* request — including the
first — through the legacy session built by `make_legacy_session`
(hostname verification off, minimum TLSv1, maximum TLSv1.2) with
`verify=False`; there is no preferred modern-TLS attempt at all. -/
theorem legacy_tls_on_every_request :
    (∀ (oracle : Str → List EwsAlert) (ip : Str) (r : HttpRequest),
        r ∈ (fetch_ews_alertsT oracle ip).1 →
        r.tls = TLSLegacyAdapterCtx ∧ r.verify = false) ∧
    (∀ (oracle : Str → Bool) (ip : Str) (r : HttpRequest),
        r ∈ fetch_ledm_rootsT oracle ip →
        r.tls = TLSLegacyAdapterCtx ∧ r.verify = false) := by
  constructor
  · intro oracle ip r hr
    simp only [fetch_ews_alertsT] at hr
    split at hr
    · exact ewsSchemePass_tls hr
    · rcases List.mem_append.mp hr with hr | hr <;> exact ewsSchemePass_tls hr
  · intro oracle ip r hr
    simp only [fetch_ledm_rootsT] at hr
    rcases List.mem_append.mp hr with hr | hr <;>
    · simp only [tryGetTrace] at hr
      split at hr
      · obtain rfl := List.mem_singleton.mp hr
        exact ⟨rfl, rfl⟩
      · rcases List.mem_cons.mp hr with rfl | hr
        · exact ⟨rfl, rfl⟩
        · obtain rfl := List.mem_singleton.mp hr
          exact ⟨rfl, rfl⟩

theorem legacy_tls_on_every_request_witness :
    (mkReq make_legacy_session "https".toList "10.0.0.5".toList
        "/sws/index.html".toList).tls = TLSLegacyAdapterCtx ∧
    (mkReq make_legacy_session "https".toList "10.0.0.5".toList
        "/sws/index.html".toList).verify = false :=
  legacy_tls_on_every_request.1 (fun _ => []) "10.0.0.5".toList
    (mkReq make_legacy_session "https".toList "10.0.0.5".toList
      "/sws/index.html".toList)
    (by decide)

/-! ## C8: the canonical final-label overrides -/

/-- a reachable device whose single alert row is critical with the
description "Sleep now". -/
def netSleepCritW : SnmpNet := fun _ oid =>
  if oid = ALERT_TABLE_ROOT then
    .rows [("1.3.6.1.2.1.43.18.1.1.2.1".toList, .vint 4),
           ("1.3.6.1.2.1.43.18.1.1.8.1".toList, .vstr "Sleep now".toList)]
  else .timeout

/-- C8 counterexample: the SNMP alert adapter applies no final-label
override: a problem label containing "sleep" is returned verbatim with
severity "critical", not as ("Sleeping", "informational"). -/
theorem canonical_overrides_counterexample :
    process_snmp_alerts netSleepCritW "10.0.0.5".toList =
      Except.ok ("Sleep now".toList, "critical".toList) ∧
    hasSub "sleep".toList (strLower "Sleep now".toList) = true ∧
    ("Sleep now".toList, "critical".toList) ≠
      ("Sleeping".toList, "informational".toList) :=
  ⟨by rfl, by rfl, by decide⟩

/-- C8 amended: the final-label overrides are adapter-specific, not
global. The EWS normalizer maps an empty or "normal" label to ("Ready",
informational) and a "sleep"-containing label to ("Sleeping",
informational), with no "unknown" rule; the LEDM normalizer maps an
"unknown"-containing label to (null, informational) and a
"sleep"/"inpowersave" label to ("Sleeping", informational) (plus
"ready"/"acknowledgeconsumablestate" rules), with no empty/"normal" rule;
the SNMP adapter applies no final-label override at all (only row-level
phrase suppression). -/
theorem canonical_overrides_per_adapter :
    (∀ p : Str,
        pyStrip p = [] ∨ strLower (pyStrip p) = "normal".toList →
        ews_normalize_problem_and_severity p =
          ("Ready".toList, some "informational".toList)) ∧
    (∀ p : Str,
        hasSub "sleep".toList (strLower (pyStrip p)) = true →
        ¬(pyStrip p = [] ∨ strLower (pyStrip p) = "normal".toList) →
        ews_normalize_problem_and_severity p =
          ("Sleeping".toList, some "informational".toList)) ∧
    (∀ (p s : Option Str),
        hasSub "unknown".toList (strLower (pyStrip (p.getD []))) = true →
        ledm_normalize_problem_and_severity p s =
          (none, some "informational".toList)) ∧
    (∀ (p s : Option Str),
        (hasSub "sleep".toList (strLower (pyStrip (p.getD []))) ||
         hasSub "inpowersave".toList (strLower (pyStrip (p.getD []))) ||
         hasSub "שינה".toList (pyStrip (p.getD []))) = true →
        hasSub "unknown".toList (strLower (pyStrip (p.getD []))) = false →
        hasSub "acknowledgeconsumablestate".toList (strLower (pyStrip (p.getD []))) = false →
        (hasSub "ready".toList (strLower (pyStrip (p.getD []))) &&
         !hasSub "not ready".toList (strLower (pyStrip (p.getD []))) &&
         !hasSub "unready".toList (strLower (pyStrip (p.getD []))) ||
         hasSub "מוכן".toList (pyStrip (p.getD []))) = false →
        ledm_normalize_problem_and_severity p s =
          (some "Sleeping".toList, some "informational".toList)) := by
  refine ⟨?_, ?_, ?_, ?_⟩
  · intro p h
    simp only [ews_normalize_problem_and_severity]
    rcases h with h | h <;> simp [h]
  · intro p hs h
    simp only [ews_normalize_problem_and_severity]
    rw [if_neg (fun hb => h (by simpa using hb)), if_pos hs]
  · intro p s h
    simp only [ledm_normalize_problem_and_severity]
    rw [if_pos h]
  · intro p s hsleep hunknown hack hready
    simp only [ledm_normalize_problem_and_severity]
    rw [if_neg (ne_true_of_eq_false hunknown), if_neg (ne_true_of_eq_false hack),
      if_neg (ne_true_of_eq_false hready), if_pos hsleep]

theorem canonical_overrides_per_adapter_witness :
    ews_normalize_problem_and_severity "Normal".toList =
      ("Ready".toList, some "informational".toList) ∧
    ews_normalize_problem_and_severity "sleep mode".toList =
      ("Sleeping".toList, some "informational".toList) ∧
    ledm_normalize_problem_and_severity (some "Unknown".toList) (some "critical".toList) =
      (none, some "informational".toList) ∧
    ledm_normalize_problem_and_severity (some "InPowerSave".toList) (some "critical".toList) =
      (some "Sleeping".toList, some "informational".toList) :=
  ⟨canonical_overrides_per_adapter.1 "Normal".toList (Or.inr (by decide)),
   canonical_overrides_per_adapter.2.1 "sleep mode".toList (by decide) (by decide),
   canonical_overrides_per_adapter.2.2.1 (some "Unknown".toList)
     (some "critical".toList) (by decide),
   canonical_overrides_per_adapter.2.2.2 (some "InPowerSave".toList)
     (some "critical".toList) (by decide) (by decide) (by decide) (by decide)⟩

/-! ## C2: most-urgent-row selection and its tie-breaks -/

lemma mem_insertAsc {x y : Int × α} {l : List (Int × α)} :
    y ∈ insertAsc x l ↔ y = x ∨ y ∈ l := by
  induction l with
  | nil => simp [insertAsc]
  | cons z zs ih =>
    by_cases hle : z.1 ≤ x.1
    · simp only [insertAsc, if_pos hle, List.mem_cons, ih]
      try tauto
    · simp only [insertAsc, if_neg hle, List.mem_cons]
      try tauto

lemma mem_sortFold {l : List (Int × α)} :
    ∀ (acc : List (Int × α)) (y : Int × α),
      y ∈ l.foldl (fun acc x => insertAsc x acc) acc ↔ y ∈ acc ∨ y ∈ l := by
  induction l with
  | nil => intro acc y; simp
  | cons z zs ih =>
    intro acc y
    simp only [List.foldl_cons, ih, mem_insertAsc, List.mem_cons]
    tauto

lemma mem_sortRowsByKey {l : List (Int × α)} {y : Int × α} :
    y ∈ sortRowsByKey l ↔ y ∈ l := by
  unfold sortRowsByKey
  rw [mem_sortFold]
  simp

lemma pairwise_insertAsc {x : Int × α} {l : List (Int × α)}
    (h : l.Pairwise (fun a b => a.1 ≤ b.1)) :
    (insertAsc x l).Pairwise (fun a b => a.1 ≤ b.1) := by
  induction l with
  | nil => simp [insertAsc]
  | cons y ys ih =>
    rcases List.pairwise_cons.mp h with ⟨hy, hys⟩
    by_cases hle : y.1 ≤ x.1
    · simp only [insertAsc, if_pos hle]
      refine List.pairwise_cons.mpr ⟨?_, ih hys⟩
      intro z hz
      rcases mem_insertAsc.mp hz with rfl | hz
      · exact hle
      · exact hy z hz
    · simp only [insertAsc, if_neg hle]
      refine List.pairwise_cons.mpr ⟨?_, h⟩
      intro z hz
      rcases List.mem_cons.mp hz with rfl | hz
      · exact le_of_lt (lt_of_not_le hle)
      · exact le_trans (le_of_lt (lt_of_not_le hle)) (hy z hz)

lemma pairwise_sortFold {l : List (Int × α)} :
    ∀ acc : List (Int × α),
      acc.Pairwise (fun a b => a.1 ≤ b.1) →
      (l.foldl (fun acc x => insertAsc x acc) acc).Pairwise (fun a b => a.1 ≤ b.1) := by
  induction l with
  | nil => intro acc h; simpa using h
  | cons z zs ih =>
    intro acc h
    exact ih (insertAsc z acc) (pairwise_insertAsc h)

lemma pairwise_sortRowsByKey {l : List (Int × α)} :
    (sortRowsByKey l).Pairwise (fun a b => a.1 ≤ b.1) :=
  pairwise_sortFold [] (by simp)

lemma find?_min_key {l : List (Int × α)} {p : Int × α → Bool} {r : Int × α}
    (hs : l.Pairwise (fun a b => a.1 ≤ b.1)) (h : l.find? p = some r) :
    ∀ x ∈ l, p x = true → r.1 ≤ x.1 := by
  induction l with
  | nil => simp at h
  | cons y ys ih =>
    rcases List.pairwise_cons.mp hs with ⟨hy, hys⟩
    by_cases hp : p y
    · rw [List.find?_cons_of_pos _ hp] at h
      injection h with h
      subst h
      intro x hx _
      rcases List.mem_cons.mp hx with rfl | hx
      · exact le_refl _
      · exact hy x hx
    · rw [List.find?_cons_of_neg _ (by simpa using hp)] at h
      intro x hx hpx
      rcases List.mem_cons.mp hx with rfl | hx
      · exact absurd hpx (by simpa using hp)
      · exact ih hys h x hx hpx

lemma alistFind_mem_values [DecidableEq κ] {l : List (κ × α)} {k : κ} {v : α}
    (h : alistFind l k = some v) : v ∈ l.map Prod.snd := by
  induction l with
  | nil => simp [alistFind] at h
  | cons p rest ih =>
    obtain ⟨k0, v0⟩ := p
    by_cases hk : k0 = k
    · simp only [alistFind, if_pos hk] at h
      injection h with h
      simp [h]
    · simp only [alistFind, if_neg hk] at h
      simp [ih h]

lemma ledmEventRank_ge (ev : LedmEvent) : (-1 : Int) ≤ ledmEventRank ev := by
  unfold ledmEventRank
  cases hf : alistFind ledmSeverityOrder (ledmEventSevRaw ev) with
  | none => simp
  | some v =>
    have hv := alistFind_mem_values hf
    have hall : ∀ w ∈ ledmSeverityOrder.map Prod.snd, (-1 : Int) ≤ w := by decide
    simpa using hall v hv

lemma ledm_fold_keeps {es : List LedmEvent}
    {acc : Option (Option Str × Option Str × Str) × Int}
    (h : ∀ e' ∈ es, ledmEventRank e' < acc.2) :
    es.foldl ledmEventStep acc = acc := by
  induction es with
  | nil => rfl
  | cons e' rest ih =>
    have hlt := h e' (by simp)
    have hstep : ledmEventStep acc e' = acc := by
      unfold ledmEventStep
      rw [if_neg (by omega)]
    rw [List.foldl_cons, hstep]
    exact ih (fun x hx => h x (by simp [hx]))

lemma ledm_fold_rank_le {m : Int} :
    ∀ (es : List LedmEvent) (acc : Option (Option Str × Option Str × Str) × Int),
      (∀ e' ∈ es, ledmEventRank e' ≤ m) → acc.2 ≤ m →
      (es.foldl ledmEventStep acc).2 ≤ m := by
  intro es
  induction es with
  | nil => intro acc _ hacc; exact hacc
  | cons e' rest ih =>
    intro acc h hacc
    rw [List.foldl_cons]
    refine ih (ledmEventStep acc e') (fun x hx => h x (by simp [hx])) ?_
    unfold ledmEventStep
    split
    · exact h e' (by simp)
    · exact hacc

/-- the first of two critical alert rows, encountered second. -/
def critRowFirstW : ARow := { sev := some 4, desc := some "First door".toList }

/-- the second of two critical alert rows, encountered first. -/
def critRowSecondW : ARow := { sev := some 4, desc := some "Second jam".toList }

/-- the earlier of two equally critical LEDM events. -/
def evFirstW : LedmEvent :=
  { severityText := some "Critical".toList, descText := some "First door".toList }

/-- the later of two equally critical LEDM events. -/
def evSecondW : LedmEvent :=
  { severityText := some "Critical".toList, descText := some "Second jam".toList }

/-- C2 counterexample: in the LEDM event-table selection (one of the two
row-selection functions the claim covers), two events whose raw severities
both map to `critical` are resolved in favour of the *later* one — the
`rank >= best_rank` fold replaces the earlier event — so the lower-index
row's message is not chosen. -/
theorem alert_row_tiebreak_counterexample :
    ledm_triage_three (some (ledmEventSevRaw evFirstW)) = "critical".toList ∧
    ledm_triage_three (some (ledmEventSevRaw evSecondW)) = "critical".toList ∧
    best_event_from_table (some [evFirstW, evSecondW]) =
      (none, some "Second jam".toList, some "critical".toList) ∧
    (best_event_from_table (some [evFirstW, evSecondW])).2.1 ≠
      some "First door".toList :=
  ⟨by rfl, by rfl, by rfl, by decide⟩

/-- C2 amended: the two selection functions tie-break differently. In the
SNMP alert-table selection the claim holds: the row the critical pass
finds in the ascending-by-row-index ordering is the chosen message, and
its row index is minimal among all critical rows with a usable message —
regardless of the order rows were encountered in. In the LEDM event-table
selection, the *last* event among those of maximal rank wins: an event
preceded only by events of no higher rank and followed only by events of
strictly lower rank is the one selected. -/
theorem alert_row_tiebreak_amended :
    (∀ (rows : List (Int × ARow)) (r : Int × ARow),
        (sortRowsByKey rows).find?
            (fun t => severity_tag t.2.sev = "critical".toList &&
              rowMsg "critical".toList t.2 ≠ []) = some r →
        decide_message_from_rows rows =
          some (rowMsg "critical".toList r.2, "critical".toList) ∧
        ∀ x ∈ rows,
          severity_tag x.2.sev = "critical".toList →
          rowMsg "critical".toList x.2 ≠ [] → r.1 ≤ x.1) ∧
    (∀ (es₁ es₂ : List LedmEvent) (e : LedmEvent),
        (∀ e' ∈ es₁, ledmEventRank e' ≤ ledmEventRank e) →
        (∀ e' ∈ es₂, ledmEventRank e' < ledmEventRank e) →
        best_event_from_table (some (es₁ ++ e :: es₂)) =
          ((ledmEventPick e).1, (ledmEventPick e).2.1, some (ledmEventPick e).2.2)) := by
  constructor
  · intro rows r hfind
    have hmem : r ∈ rows := by
      have := List.mem_of_find?_eq_some hfind
      exact mem_sortRowsByKey.mp this
    have hne : rows ≠ [] := by
      intro hnil
      rw [hnil] at hmem
      simp at hmem
    constructor
    · simp only [decide_message_from_rows, if_neg hne]
      simp only [tierNames, List.findSome?]
      rw [hfind]
      rfl
    · intro x hx hsev hmsg
      refine find?_min_key pairwise_sortRowsByKey hfind x (mem_sortRowsByKey.mpr hx) ?_
      simp only [Bool.and_eq_true, decide_eq_true_eq]
      exact ⟨hsev, hmsg⟩
  · intro es₁ es₂ e h₁ h₂
    have hinit : ((none : Option (Option Str × Option Str × Str)), (-1 : Int)).2 ≤
        ledmEventRank e := ledmEventRank_ge e
    have hacc : (es₁.foldl ledmEventStep (none, -1)).2 ≤ ledmEventRank e :=
      ledm_fold_rank_le es₁ (none, -1) h₁ hinit
    have hrepl : ∀ (acc : Option (Option Str × Option Str × Str) × Int),
        acc.2 ≤ ledmEventRank e →
        ledmEventStep acc e = (some (ledmEventPick e), ledmEventRank e) := by
      intro acc hle
      unfold ledmEventStep
      rw [if_pos (by omega)]
    have hstep := hrepl (es₁.foldl ledmEventStep (none, -1)) hacc
    have hfold : (es₁ ++ e :: es₂).foldl ledmEventStep (none, -1) =
        (some (ledmEventPick e), ledmEventRank e) := by
      rw [List.foldl_append, List.foldl_cons, hstep]
      exact ledm_fold_keeps h₂
    simp only [best_event_from_table, hfold]

theorem alert_row_tiebreak_amended_witness :
    decide_message_from_rows [(2, critRowSecondW), (1, critRowFirstW)] =
      some (rowMsg "critical".toList critRowFirstW, "critical".toList) ∧
    (∀ x ∈ [((2 : Int), critRowSecondW), (1, critRowFirstW)],
        severity_tag x.2.sev = "critical".toList →
        rowMsg "critical".toList x.2 ≠ [] → (1 : Int) ≤ x.1) ∧
    best_event_from_table (some ([evFirstW] ++ evSecondW :: [])) =
      ((ledmEventPick evSecondW).1, (ledmEventPick evSecondW).2.1,
        some (ledmEventPick evSecondW).2.2) :=
  ⟨((alert_row_tiebreak_amended.1 [(2, critRowSecondW), (1, critRowFirstW)]
      (1, critRowFirstW)) (by rfl)).1,
   ((alert_row_tiebreak_amended.1 [(2, critRowSecondW), (1, critRowFirstW)]
      (1, critRowFirstW)) (by rfl)).2,
   alert_row_tiebreak_amended.2 [evFirstW] [] evSecondW (by decide) (by decide)⟩

/-! ## C4: representative sampling -/

lemma mem_addToGroups_members {gs : List (Str × List (Nat × PrinterRec))} {t : Str}
    {x : Nat × PrinterRec} {t' : Str} {ms : List (Nat × PrinterRec)}
    {m : Nat × PrinterRec}
    (hg : (t', ms) ∈ addToGroups gs t x) (hm : m ∈ ms) :
    (∃ ms₀, (t', ms₀) ∈ gs ∧ m ∈ ms₀) ∨ m = x := by
  induction gs with
  | nil =>
    simp only [addToGroups, List.mem_singleton, Prod.mk.injEq] at hg
    rw [hg.2] at hm
    right
    simpa using hm
  | cons g rest ih =>
    obtain ⟨k, xs⟩ := g
    by_cases hk : k = t
    · simp only [addToGroups, if_pos hk, List.mem_cons, Prod.mk.injEq] at hg
      rcases hg with ⟨h1, h2⟩ | hg
      · rw [h2] at hm
        rcases List.mem_append.mp hm with hm | hm
        · exact Or.inl ⟨xs, by simp [h1], hm⟩
        · right
          simpa using hm
      · exact Or.inl ⟨ms, List.mem_cons_of_mem _ hg, hm⟩
    · simp only [addToGroups, if_neg hk, List.mem_cons, Prod.mk.injEq] at hg
      rcases hg with ⟨h1, h2⟩ | hg
      · rw [h2] at hm
        exact Or.inl ⟨xs, by simp [h1], hm⟩
      · rcases ih hg with ⟨ms₀, hin, hm₀⟩ | hx
        · exact Or.inl ⟨ms₀, List.mem_cons_of_mem _ hin, hm₀⟩
        · exact Or.inr hx

lemma buildGroups_fold_members {P : Nat × PrinterRec → Prop} :
    ∀ (l : List (Nat × PrinterRec)) (gs : List (Str × List (Nat × PrinterRec))),
      (∀ t' ms m, (t', ms) ∈ gs → m ∈ ms → P m) → (∀ x ∈ l, P x) →
      ∀ t' ms m,
        (t', ms) ∈ l.foldl (fun gs m => addToGroups gs (group_key m.2) m) gs →
        m ∈ ms → P m := by
  intro l
  induction l with
  | nil => intro gs hgs _ t' ms m hg hm; exact hgs t' ms m hg hm
  | cons x rest ih =>
    intro gs hgs hl t' ms m hg hm
    rw [List.foldl_cons] at hg
    refine ih (addToGroups gs (group_key x.2) x) ?_
      (fun y hy => hl y (by simp [hy])) t' ms m hg hm
    intro t2 ms2 m2 hg2 hm2
    rcases mem_addToGroups_members hg2 hm2 with ⟨ms₀, hin, hm₀⟩ | heq
    · exact hgs t2 ms₀ m2 hin hm₀
    · rw [heq]
      exact hl x (by simp)

lemma mem_groups_is_selected {ps : List PrinterRec} {t : Str}
    {ms : List (Nat × PrinterRec)} {m : Nat × PrinterRec}
    (hg : (t, ms) ∈ buildGroups (toner_type_select ps)) (hm : m ∈ ms) :
    m ∈ toner_type_select ps := by
  refine buildGroups_fold_members (toner_type_select ps) [] ?_ (fun x hx => hx)
    t ms m hg hm
  intro t' ms' m' hg'
  simp at hg'

lemma selected_props {ps : List PrinterRec} {m : Nat × PrinterRec}
    (h : m ∈ toner_type_select ps) :
    is_good_ip (norm_ip m.2) = true ∧ matches_type m.2 TONER_TARGET_TYPES_LC = true ∧
      m ∈ ps.enum := by
  unfold toner_type_select at h
  rcases List.mem_filter.mp h with ⟨hmem, hcond⟩
  simp only [Bool.and_eq_true] at hcond
  exact ⟨hcond.1, hcond.2, hmem⟩

/-- the tonerType writes of the pass, one per group member. -/
def tonerUpdatesOf (ps : List PrinterRec) (probe : Str → Option (List Str)) :
    List (Nat × List Str) :=
  (buildGroups (toner_type_select ps)).bind
    (fun g => g.2.map (fun m => (m.1, (process_group probe g.2).1)))

/-- the probes of the pass, concatenated per group. -/
def tonerProbesOf (ps : List PrinterRec) (probe : Str → Option (List Str)) :
    List Str :=
  (buildGroups (toner_type_select ps)).bind (fun g => (process_group probe g.2).2)

lemma tonerGroupStep_fold (probe : Str → Option (List Str)) :
    ∀ (groups : List (Str × List (Nat × PrinterRec)))
      (acc : List (Nat × List Str) × List Str),
      groups.foldl (tonerGroupStep probe) acc =
        (acc.1 ++ groups.bind
            (fun g => g.2.map (fun m => (m.1, (process_group probe g.2).1))),
         acc.2 ++ groups.bind (fun g => (process_group probe g.2).2)) := by
  intro groups
  induction groups with
  | nil => intro acc; simp
  | cons g rest ih =>
    intro acc
    rw [List.foldl_cons, ih]
    simp [tonerGroupStep, List.cons_bind, List.append_assoc]

lemma toner_pass_eq (ps : List PrinterRec) (probe : Str → Option (List Str)) :
    toner_type_group_pass ps probe =
      (applyTonerUpdates ps (tonerUpdatesOf ps probe), tonerProbesOf ps probe) := by
  simp only [toner_type_group_pass]
  rw [tonerGroupStep_fold]
  simp [tonerUpdatesOf, tonerProbesOf]

lemma updateAtIdx_get_ne {f : α → α} :
    ∀ (l : List α) (i j : Nat), j ≠ i → (updateAtIdx l i f)[j]? = l[j]? := by
  intro l
  induction l with
  | nil => intro i j _; simp [updateAtIdx]
  | cons x xs ih =>
    intro i j hij
    cases i with
    | zero =>
      cases j with
      | zero => exact absurd rfl hij
      | succ k => simp [updateAtIdx]
    | succ n =>
      cases j with
      | zero => simp [updateAtIdx]
      | succ k =>
        simp only [updateAtIdx, List.getElem?_cons_succ]
        exact ih n k (fun h => hij (by rw [h]))

lemma updateAtIdx_get_eq {f : α → α} :
    ∀ (l : List α) (i : Nat), (updateAtIdx l i f)[i]? = (l[i]?).map f := by
  intro l
  induction l with
  | nil => intro i; simp [updateAtIdx]
  | cons x xs ih =>
    intro i
    cases i with
    | zero => simp [updateAtIdx]
    | succ n =>
      simp only [updateAtIdx, List.getElem?_cons_succ]
      exact ih n

lemma applyTonerUpdates_cons (ps : List PrinterRec) (j : Nat) (w : List Str)
    (rest : List (Nat × List Str)) :
    applyTonerUpdates ps ((j, w) :: rest) =
      applyTonerUpdates (updateAtIdx ps j (fun p => setTonerType p w)) rest := by
  simp [applyTonerUpdates]

lemma applyTonerUpdates_notmem :
    ∀ (updates : List (Nat × List Str)) (ps : List PrinterRec) (i : Nat),
      i ∉ updates.map Prod.fst →
      (applyTonerUpdates ps updates)[i]? = ps[i]? := by
  intro updates
  induction updates with
  | nil => intro ps i _; rfl
  | cons u rest ih =>
    intro ps i hi
    obtain ⟨j, w⟩ := u
    simp only [List.map_cons, List.mem_cons] at hi
    push_neg at hi
    rw [applyTonerUpdates_cons, ih _ i hi.2]
    exact updateAtIdx_get_ne ps j i hi.1

lemma applyTonerUpdates_mem :
    ∀ (updates : List (Nat × List Str)) (ps : List PrinterRec) (i : Nat)
      (v : List Str),
      (i, v) ∈ updates → (updates.map Prod.fst).Nodup →
      (applyTonerUpdates ps updates)[i]? =
        (ps[i]?).map (fun p => setTonerType p v) := by
  intro updates
  induction updates with
  | nil => intro ps i v hm _; simp at hm
  | cons u rest ih =>
    intro ps i v hm hnd
    obtain ⟨j, w⟩ := u
    simp only [List.map_cons, List.nodup_cons] at hnd
    rcases List.mem_cons.mp hm with heq | hm'
    · injection heq with h1 h2
      subst h1
      subst h2
      rw [applyTonerUpdates_cons,
        applyTonerUpdates_notmem rest _ i hnd.1,
        updateAtIdx_get_eq]
    · have hj : j ≠ i := by
        intro hji
        subst hji
        exact hnd.1 (List.mem_map.mpr ⟨(j, v), hm', rfl⟩)
      rw [applyTonerUpdates_cons, ih _ i v hm' hnd.2,
        updateAtIdx_get_ne ps j i (fun h => hj h.symm)]

lemma bind_addToGroups {gs : List (Str × List (Nat × PrinterRec))} {t : Str}
    {x : Nat × PrinterRec} :
    ((addToGroups gs t x).bind (fun g => g.2)).Perm
      ((gs.bind (fun g => g.2)) ++ [x]) := by
  induction gs with
  | nil => simp [addToGroups]
  | cons g rest ih =>
    obtain ⟨k, xs⟩ := g
    by_cases hk : k = t
    · simp only [addToGroups, if_pos hk, List.cons_bind]
      rw [List.append_assoc xs [x] (rest.bind (fun g => g.2)),
        List.append_assoc xs (rest.bind (fun g => g.2)) [x]]
      exact List.Perm.append_left xs List.perm_append_comm
    · simp only [addToGroups, if_neg hk, List.cons_bind]
      rw [List.append_assoc xs (rest.bind (fun g => g.2)) [x]]
      exact List.Perm.append_left xs ih

lemma bind_buildGroups_fold_perm :
    ∀ (l : List (Nat × PrinterRec)) (gs : List (Str × List (Nat × PrinterRec))),
      ((l.foldl (fun gs m => addToGroups gs (group_key m.2) m) gs).bind
          (fun g => g.2)).Perm ((gs.bind (fun g => g.2)) ++ l) := by
  intro l
  induction l with
  | nil => intro gs; simp
  | cons x rest ih =>
    intro gs
    rw [List.foldl_cons]
    refine (ih (addToGroups gs (group_key x.2) x)).trans ?_
    refine (List.Perm.append_right rest bind_addToGroups).trans ?_
    rw [List.append_assoc]
    simp

lemma bind_buildGroups_perm (l : List (Nat × PrinterRec)) :
    ((buildGroups l).bind (fun g => g.2)).Perm l := by
  have h := bind_buildGroups_fold_perm l []
  simpa [buildGroups] using h

lemma sel_fst_nodup (ps : List PrinterRec) :
    ((toner_type_select ps).map Prod.fst).Nodup := by
  have h1 : (ps.enum.map Prod.fst).Nodup := List.nodup_enum_map_fst ps
  have hsub : List.Sublist ((toner_type_select ps).map Prod.fst)
      (ps.enum.map Prod.fst) := (List.filter_sublist _).map _
  exact hsub.nodup h1

lemma updates_fst_perm (ps : List PrinterRec) (probe : Str → Option (List Str)) :
    ((tonerUpdatesOf ps probe).map Prod.fst).Perm
      ((toner_type_select ps).map Prod.fst) := by
  have h1 : (tonerUpdatesOf ps probe).map Prod.fst =
      ((buildGroups (toner_type_select ps)).bind (fun g => g.2)).map Prod.fst := by
    simp only [tonerUpdatesOf, List.map_bind, List.map_map]
    congr 1
  rw [h1]
  exact (bind_buildGroups_perm (toner_type_select ps)).map Prod.fst

lemma updates_fst_nodup (ps : List PrinterRec) (probe : Str → Option (List Str)) :
    ((tonerUpdatesOf ps probe).map Prod.fst).Nodup :=
  ((updates_fst_perm ps probe).nodup_iff).mpr (sel_fst_nodup ps)

lemma mem_updates {ps : List PrinterRec} {probe : Str → Option (List Str)}
    {t : Str} {ms : List (Nat × PrinterRec)} {m : Nat × PrinterRec}
    (hg : (t, ms) ∈ buildGroups (toner_type_select ps)) (hm : m ∈ ms) :
    (m.1, (process_group probe ms).1) ∈ tonerUpdatesOf ps probe := by
  unfold tonerUpdatesOf
  refine List.mem_bind.mpr ⟨(t, ms), hg, ?_⟩
  exact List.mem_map.mpr ⟨m, hm, rfl⟩

lemma sel_get {ps : List PrinterRec} {m : Nat × PrinterRec}
    (h : m ∈ toner_type_select ps) : ps[m.1]? = some m.2 := by
  have hmem := (selected_props h).2.2
  have h2 := List.mem_enum_iff_get?.mp hmem
  simpa [← List.get?_eq_getElem?] using h2

/-- the one member of the model group with a usable address. -/
def tonerP1W : PrinterRec :=
  { printerIPKey := some "10.0.0.1".toList, typeKey := some "M402dn".toList }

/-- a same-model member with the placeholder address "-". -/
def tonerP2W : PrinterRec :=
  { printerIPKey := some "-".toList, typeKey := some "M402dn".toList }

/-- a same-model member with no address at all. -/
def tonerP3W : PrinterRec := { typeKey := some "M402dn".toList }

def tonerProbeW : Str → Option (List Str) := fun _ => some ["CF226X".toList]

/-- C4 counterexample: with 3 entities of the same declared model of which
only 1 has a usable address, the pass makes exactly one probe — but only
that 1 entity receives the result: the two members without a usable
address are filtered out before grouping, keep `tonerType` absent, and do
not carry the same resulting value. -/
theorem toner_sampling_counterexample :
    (toner_type_group_pass [tonerP1W, tonerP2W, tonerP3W] tonerProbeW).2 =
      ["10.0.0.1".toList] ∧
    (toner_type_group_pass [tonerP1W, tonerP2W, tonerP3W] tonerProbeW).1 =
      [setTonerType tonerP1W ["CF226X".toList], tonerP2W, tonerP3W] ∧
    ((setTonerType tonerP1W ["CF226X".toList]).printerInfo.getD {}).tonerType =
      some ["CF226X".toList] ∧
    (tonerP2W.printerInfo.getD {}).tonerType = none ∧
    (tonerP3W.printerInfo.getD {}).tonerType = none :=
  ⟨by rfl, by rfl, by rfl, by rfl, by rfl⟩

/-- C4 amended: the model groups of the sampling pass contain only the
entities with a usable address and a matching type; within such a group
with no preset tonerType, exactly one probe is made, to the first member
(whose address is good by construction), and every member of the group
ends the pass carrying the same resulting value; entities without a
usable address (or without a matching type) are not grouped and end the
pass unchanged. -/
theorem toner_sampling_amended :
    (∀ (ps : List PrinterRec) (t : Str) (ms : List (Nat × PrinterRec))
        (m : Nat × PrinterRec),
        (t, ms) ∈ buildGroups (toner_type_select ps) → m ∈ ms →
        is_good_ip (norm_ip m.2) = true ∧
        matches_type m.2 TONER_TARGET_TYPES_LC = true) ∧
    (∀ (probe : Str → Option (List Str)) (items : List (Nat × PrinterRec))
        (i : Nat) (p : PrinterRec) (rest : List (Nat × PrinterRec)),
        items = (i, p) :: rest →
        is_good_ip (norm_ip p) = true →
        find_preset items = [] →
        process_group probe items = ((probe (norm_ip p)).getD [], [norm_ip p])) ∧
    (∀ (ps : List PrinterRec) (probe : Str → Option (List Str)) (t : Str)
        (ms : List (Nat × PrinterRec)) (m : Nat × PrinterRec),
        (t, ms) ∈ buildGroups (toner_type_select ps) → m ∈ ms →
        ((toner_type_group_pass ps probe).1)[m.1]? =
          some (setTonerType m.2 (process_group probe ms).1)) ∧
    (∀ (ps : List PrinterRec) (probe : Str → Option (List Str)) (i : Nat),
        (∀ p, ps[i]? = some p →
          ¬(is_good_ip (norm_ip p) = true ∧
            matches_type p TONER_TARGET_TYPES_LC = true)) →
        ((toner_type_group_pass ps probe).1)[i]? = ps[i]?) ∧
    (∀ (ps : List PrinterRec) (probe : Str → Option (List Str)),
        (toner_type_group_pass ps probe).2 =
          (buildGroups (toner_type_select ps)).bind
            (fun g => (process_group probe g.2).2)) := by
  refine ⟨?_, ?_, ?_, ?_, ?_⟩
  · intro ps t ms m hg hm
    have hsel := mem_groups_is_selected hg hm
    exact ⟨(selected_props hsel).1, (selected_props hsel).2.1⟩
  · intro probe items i p rest heq hgood hpreset
    subst heq
    have hrep : find_rep ((i, p) :: rest) = some (norm_ip p) := by
      simp [find_rep, List.findSome?_cons, hgood]
    have hone : process_one_toner probe (norm_ip p) = probe (norm_ip p) := by
      simp [process_one_toner, hgood]
    simp only [process_group, hpreset, List.isEmpty_nil, if_true, hrep, hone]
    cases probe (norm_ip p) <;> rfl
  · intro ps probe t ms m hg hm
    rw [toner_pass_eq]
    have h1 := applyTonerUpdates_mem (tonerUpdatesOf ps probe) ps m.1
      (process_group probe ms).1 (mem_updates hg hm) (updates_fst_nodup ps probe)
    rw [h1, sel_get (mem_groups_is_selected hg hm)]
    rfl
  · intro ps probe i hi
    rw [toner_pass_eq]
    refine applyTonerUpdates_notmem (tonerUpdatesOf ps probe) ps i ?_
    intro hin
    have hin2 : i ∈ (toner_type_select ps).map Prod.fst :=
      ((updates_fst_perm ps probe).mem_iff).mp hin
    rcases List.mem_map.mp hin2 with ⟨m, hmsel, hfst⟩
    have props := selected_props hmsel
    have hget : ps[i]? = some m.2 := by
      rw [← hfst]
      exact sel_get hmsel
    exact hi m.2 hget ⟨props.1, props.2.1⟩
  · intro ps probe
    rw [toner_pass_eq]
    rfl

theorem toner_sampling_amended_witness :
    (is_good_ip (norm_ip tonerP1W) = true ∧
      matches_type tonerP1W TONER_TARGET_TYPES_LC = true) ∧
    process_group tonerProbeW [(0, tonerP1W)] =
      ((tonerProbeW (norm_ip tonerP1W)).getD [], [norm_ip tonerP1W]) ∧
    ((toner_type_group_pass [tonerP1W, tonerP2W, tonerP3W] tonerProbeW).1)[0]? =
      some (setTonerType tonerP1W
        (process_group tonerProbeW [(0, tonerP1W)]).1) ∧
    ((toner_type_group_pass [tonerP1W, tonerP2W, tonerP3W] tonerProbeW).1)[1]? =
      some tonerP2W :=
  ⟨toner_sampling_amended.1 [tonerP1W, tonerP2W, tonerP3W] "M402dn".toList
     [(0, tonerP1W)] (0, tonerP1W) (by decide) (by decide),
   toner_sampling_amended.2.1 tonerProbeW [(0, tonerP1W)] 0 tonerP1W []
     (by rfl) (by decide) (by rfl),
   toner_sampling_amended.2.2.1 [tonerP1W, tonerP2W, tonerP3W] tonerProbeW
     "M402dn".toList [(0, tonerP1W)] (0, tonerP1W) (by decide) (by decide),
   toner_sampling_amended.2.2.2.1 [tonerP1W, tonerP2W, tonerP3W] tonerProbeW 1
     (by decide)⟩
